import Mathlib

/-! # Probe server of `fiber-di-template`

A shallow embedding of `src/bootstrap/probe/probe.go`: the three atomic flags of
`ProbeServer`, the operations that write them, the three health handlers
registered by `NewProbeServer`, and the properties of the readiness state
machine that follow from them.

Conventions.
* An `atomic.Bool` is a `Bool` field; `Store` is a field update and `Load` a
  field read.  Calls are sequential: every operation is a function from the
  state before the call to the state after it.
* The zap logger is an append-only list of entries, oldest first.
* Results of library calls the code only consumes (`Server.Shutdown`,
  `Server.ListenAndServe`) are arguments of the operation that consumes them.
* A Go `error` value is `Option Error`, `none` being `nil`.
-/

namespace Probe

/-! ## Collaborators -/

/-- Go error values, identified by their message. -/
abbrev Error := String

/-- Levels of the zap calls made by the probe server. -/
inductive Level where
  | Info
  | Error
  deriving DecidableEq, Repr

/-- One zap log call: logger name, level, message and the `zap.Error` field. -/
structure LogEntry where
  logger : String
  level : Level
  msg : String
  err : Option Error
  deriving DecidableEq, Repr

/-- The zap logger: its name and what has been written through it. -/
structure Logger where
  name : String
  entries : List LogEntry
  deriving DecidableEq, Repr

/-- Go `(*zap.Logger).Named`: a child logger; names are joined by a period. -/
def Logger.Named (l : Logger) (s : String) : Logger :=
  { l with name := if l.name = "" then s else l.name ++ "." ++ s }

/-- Go `(*zap.Logger).Info` with no fields. -/
def Logger.Info (l : Logger) (msg : String) : Logger :=
  { l with entries := l.entries ++ [⟨l.name, Level.Info, msg, none⟩] }

/-- Go `(*zap.Logger).Error` with one `zap.Error(err)` field. -/
def Logger.Error (l : Logger) (msg : String) (err : Error) : Logger :=
  { l with entries := l.entries ++ [⟨l.name, Level.Error, msg, some err⟩] }

/-- The part of `config.ProbeConfig` read by the probe server. -/
structure ProbeConfig where
  Port : Int
  EnableProbeServer : Bool
  deriving DecidableEq, Repr

/-- The part of `config.Config` read by the probe server. -/
structure Config where
  Probe : ProbeConfig
  deriving DecidableEq, Repr

/-- Go `http.StatusOK`. -/
def StatusOK : Nat := 200

/-- Go `http.StatusServiceUnavailable`. -/
def StatusServiceUnavailable : Nat := 503

/-- Go `http.StatusNotFound`. -/
def StatusNotFound : Nat := 404

/-- Go `http.ResponseWriter` as the handlers use it: the status line once it has
been written, and the body written so far. -/
structure ResponseWriter where
  status : Option Nat
  body : String
  deriving DecidableEq, Repr

/-- A writer on which nothing has been written yet. -/
def ResponseWriter.fresh : ResponseWriter := ⟨none, ""⟩

/-- Go `w.WriteHeader(code)`: the first call fixes the status. -/
def ResponseWriter.WriteHeader (w : ResponseWriter) (code : Nat) : ResponseWriter :=
  match w.status with
  | none => { w with status := some code }
  | some _ => w

/-- Go `w.Write(b)`: writes the status 200 first when none was written. -/
def ResponseWriter.Write (w : ResponseWriter) (b : String) : ResponseWriter :=
  let w1 := match w.status with
    | none => { w with status := some StatusOK }
    | some _ => w
  { w1 with body := w1.body ++ b }

/-- What a client receives: status code and body. -/
structure Response where
  status : Nat
  body : String
  deriving DecidableEq, Repr

/-- The response carried by a writer when the handler returns; a handler that
wrote nothing answers 200 with an empty body. -/
def ResponseWriter.response (w : ResponseWriter) : Response :=
  ⟨w.status.getD StatusOK, w.body⟩

/-- Go `http.Server` as configured by `NewProbeServer` (the handler is `mux`,
given below, since it closes over the probe server itself). -/
structure Server where
  Addr : String
  ReadHeaderTimeoutSeconds : Nat
  deriving DecidableEq, Repr

/-! ## `ProbeServer` -/

/-- Go `type ProbeServer struct`. -/
structure ProbeServer where
  Server : Server
  Logger : Logger
  readyFlag : Bool
  startupFlag : Bool
  shutdownFlag : Bool
  deriving DecidableEq, Repr

/-- The `/healthz` handler of `NewProbeServer`. -/
def healthzHandler (_p : ProbeServer) (w : ResponseWriter) : ResponseWriter :=
  (w.WriteHeader StatusOK).Write "OK"

/-- The `/readyz` handler of `NewProbeServer`. -/
def readyzHandler (p : ProbeServer) (w : ResponseWriter) : ResponseWriter :=
  if p.readyFlag then
    (w.WriteHeader StatusOK).Write "OK"
  else
    (w.WriteHeader StatusServiceUnavailable).Write "Service not ready yet"

/-- The `/startupz` handler of `NewProbeServer`. -/
def startupzHandler (p : ProbeServer) (w : ResponseWriter) : ResponseWriter :=
  if p.startupFlag then
    (w.WriteHeader StatusOK).Write "OK"
  else
    (w.WriteHeader StatusServiceUnavailable).Write "Service starting up"

/-- The `http.ServeMux` built by `NewProbeServer`, for a request whose path is
clean (no empty, `.` or `..` element): the three registered patterns have no
trailing slash, so each matches its path exactly, and any other clean path gets
the mux's 404 reply.  A path that is not clean is redirected by the mux to its
clean form; that is left out. -/
def mux (p : ProbeServer) (path : String) (w : ResponseWriter) : ResponseWriter :=
  if path = "/healthz" then healthzHandler p w
  else if path = "/readyz" then readyzHandler p w
  else if path = "/startupz" then startupzHandler p w
  else (w.WriteHeader StatusNotFound).Write "404 page not found\n"

/-- A `GET` of `path` against the probe server in state `p`. -/
def get (p : ProbeServer) (path : String) : Response :=
  (mux p path ResponseWriter.fresh).response

/-- Go `NewProbeServer`.  The three `atomic.Bool` fields start at their zero
value. -/
def NewProbeServer (cfg : Config) (logger : Logger) : ProbeServer :=
  { Server := { Addr := ":" ++ toString cfg.Probe.Port, ReadHeaderTimeoutSeconds := 5 }
    Logger := logger.Named "probe"
    readyFlag := false
    startupFlag := false
    shutdownFlag := false }

/-- The goroutine launched by `Start`, at the moment `ListenAndServe` returns
`err`: an error other than `http.ErrServerClosed` is logged. -/
def Start.serve (p : ProbeServer) (err : Option Error) (ErrServerClosed : Error) : ProbeServer :=
  match err with
  | none => p
  | some e =>
    if e ≠ ErrServerClosed then { p with Logger := p.Logger.Error "Probe server error" e }
    else p

/-- Go `(*ProbeServer).Start`, up to its return: the log line, the launch of the
serving goroutine (whose own effect is `Start.serve`), and the flag reset. -/
def ProbeServer.Start (p : ProbeServer) : ProbeServer × Option Error :=
  let p := { p with Logger := p.Logger.Info ("🔍 Starting probe server on port " ++ p.Server.Addr) }
  -- Reset flags
  let p := { p with readyFlag := false }
  let p := { p with startupFlag := false }
  let p := { p with shutdownFlag := false }
  (p, none)

/-- Go `(*ProbeServer).Stop`; `shutdown` is what `p.Server.Shutdown(stopCtx)`
returns. -/
def ProbeServer.Stop (p : ProbeServer) (shutdown : Option Error) : ProbeServer × Option Error :=
  -- Mark as not ready and shutting down
  let p := { p with readyFlag := false }
  let p := { p with shutdownFlag := true }
  let p := { p with Logger := p.Logger.Info "🛑 Stopping probe server" }
  match shutdown with
  | some err =>
    ({ p with Logger := p.Logger.Error "Error shutting down probe server" err }, some err)
  | none => (p, none)

/-- Go `(*ProbeServer).MarkReady`. -/
def ProbeServer.MarkReady (p : ProbeServer) : ProbeServer :=
  let p := { p with readyFlag := true }
  { p with Logger := p.Logger.Info "✅ Service marked as ready" }

/-- Go `(*ProbeServer).MarkNotReady`. -/
def ProbeServer.MarkNotReady (p : ProbeServer) : ProbeServer :=
  let p := { p with readyFlag := false }
  { p with Logger := p.Logger.Info "❌ Service marked as not ready" }

/-- Go `(*ProbeServer).MarkStartupComplete`. -/
def ProbeServer.MarkStartupComplete (p : ProbeServer) : ProbeServer :=
  let p := { p with startupFlag := true }
  { p with Logger := p.Logger.Info "✅ Service startup completed" }

/-- Go `(*ProbeServer).IsReady`. -/
def ProbeServer.IsReady (p : ProbeServer) : Bool := p.readyFlag

/-- Go `(*ProbeServer).IsStartupComplete`. -/
def ProbeServer.IsStartupComplete (p : ProbeServer) : Bool := p.startupFlag

/-- Go `(*ProbeServer).IsShuttingDown`. -/
def ProbeServer.IsShuttingDown (p : ProbeServer) : Bool := p.shutdownFlag

/-! ## Sequences of operations -/

/-- The state-changing methods of `ProbeServer`; `Stop` carries the outcome of
the `Server.Shutdown` call it makes. -/
inductive Op where
  | Start
  | Stop (shutdown : Option Error)
  | MarkReady
  | MarkNotReady
  | MarkStartupComplete
  deriving DecidableEq, Repr

/-- The state after one operation (the returned error, if any, is dropped). -/
def Op.apply (o : Op) (p : ProbeServer) : ProbeServer :=
  match o with
  | Op.Start => p.Start.1
  | Op.Stop r => (p.Stop r).1
  | Op.MarkReady => p.MarkReady
  | Op.MarkNotReady => p.MarkNotReady
  | Op.MarkStartupComplete => p.MarkStartupComplete

/-- The state after a sequence of operations, first operation first. -/
def run (ops : List Op) (p : ProbeServer) : ProbeServer :=
  ops.foldl (fun q o => o.apply q) p

/-! ## Concrete inputs -/

/-- The configuration with the default probe port. -/
def cfg0 : Config := ⟨⟨8081, true⟩⟩

/-- A root logger with nothing written. -/
def logger0 : Logger := ⟨"", []⟩

/-- A probe server as the application has it once its start hook has run. -/
def started0 : ProbeServer := (NewProbeServer cfg0 logger0).Start.1

/-! ## Reads in state-passing form -/

/-- The read-only entry points of the probe server: the three accessors and the
three handlers. -/
inductive Query where
  | IsReady
  | IsStartupComplete
  | IsShuttingDown
  | healthz
  | readyz
  | startupz
  deriving DecidableEq, Repr

/-- What a read-only entry point gives back: a flag value, or the response
writer it has written to. -/
inductive Answer where
  | flag (b : Bool)
  | written (w : ResponseWriter)
  deriving DecidableEq, Repr

/-- A read-only entry point as a state transformer: the probe server after the
call and the answer.  The Go bodies only `Load` a flag and write to `w`; they
make no `Store` and no logger call, so the server comes back as it went in. -/
def Query.call (q : Query) (p : ProbeServer) (w : ResponseWriter) : ProbeServer × Answer :=
  match q with
  | Query.IsReady => (p, Answer.flag p.IsReady)
  | Query.IsStartupComplete => (p, Answer.flag p.IsStartupComplete)
  | Query.IsShuttingDown => (p, Answer.flag p.IsShuttingDown)
  | Query.healthz => (p, Answer.written (healthzHandler p w))
  | Query.readyz => (p, Answer.written (readyzHandler p w))
  | Query.startupz => (p, Answer.written (startupzHandler p w))

/-! ## Atomic stores and their interleavings

`sync/atomic` operations behave as if executed in one sequentially consistent
order, so concurrent calls are modelled by interleaving the atomic stores of
each call. -/

/-- The three `atomic.Bool` fields of `ProbeServer`. -/
inductive Flag where
  | ready
  | startup
  | shutdown
  deriving DecidableEq, Repr

/-- The values of the three flags at one instant. -/
structure Flags where
  ready : Bool
  startup : Bool
  shutdown : Bool
  deriving DecidableEq, Repr

/-- The flags of a probe server. -/
def ProbeServer.flags (p : ProbeServer) : Flags :=
  ⟨p.readyFlag, p.startupFlag, p.shutdownFlag⟩

/-- One `Store` on one flag. -/
def Flags.store (s : Flags) (f : Flag) (b : Bool) : Flags :=
  match f with
  | Flag.ready => { s with ready := b }
  | Flag.startup => { s with startup := b }
  | Flag.shutdown => { s with shutdown := b }

/-- The `Store` calls of each method, in program order. -/
def Op.stores : Op → List (Flag × Bool)
  | Op.Start => [(Flag.ready, false), (Flag.startup, false), (Flag.shutdown, false)]
  | Op.Stop _ => [(Flag.ready, false), (Flag.shutdown, true)]
  | Op.MarkReady => [(Flag.ready, true)]
  | Op.MarkNotReady => [(Flag.ready, false)]
  | Op.MarkStartupComplete => [(Flag.startup, true)]

/-- Concurrent calls in progress: the flags, and for each call the stores it has
still to make. -/
structure Conc where
  flags : Flags
  threads : List (List (Flag × Bool))
  deriving DecidableEq, Repr

/-- Calls `ops` started concurrently on flags `s`, none having made a store yet. -/
def Conc.init (s : Flags) (ops : List Op) : Conc :=
  ⟨s, ops.map Op.stores⟩

/-- The scheduler lets call number `i` make its next store; a call that has
finished, or a number that names no call, leaves everything as it is. -/
def Conc.step (c : Conc) (i : Nat) : Conc :=
  match c.threads.get? i with
  | some ((f, b) :: rest) => ⟨c.flags.store f b, c.threads.set i rest⟩
  | _ => c

/-- The configuration after the scheduler has made the choices `sched` in turn. -/
def Conc.run (c : Conc) (sched : List Nat) : Conc :=
  sched.foldl Conc.step c

/-- Whether a call that still has the stores `t` to make can do so without
raising the ready flag and without setting the shutting-down flag while the
ready flag is up; `r` is the ready flag now. -/
def safeThread (r : Bool) : List (Flag × Bool) → Bool
  | [] => true
  | (Flag.ready, true) :: _ => false
  | (Flag.ready, false) :: t => safeThread false t
  | (Flag.shutdown, true) :: t => !r && safeThread r t
  | _ :: t => safeThread r t

/-- The invariant kept by concurrent calls none of which raises the ready flag:
the flags are not both up, and every call can finish without breaking that. -/
def Conc.Safe (c : Conc) : Prop :=
  (c.flags.shutdown = true → c.flags.ready = false) ∧
    ∀ t ∈ c.threads, safeThread c.flags.ready t = true

end Probe

/-! # Lifecycle hooks of the main server

An embedding of `StartFiberApp` in `src/bootstrap/server/server.go` and of the
hook registration in `src/bootstrap/probe/fx.go` and `src/bootstrap/fx.go`.  A
hook is given by the calls it makes, in program order; the calls act on a state
holding the probe server, the root logger and the calls received by the
`fiber.App`. -/

namespace Server

open Probe (ProbeServer Op Error)

/-- The part of `config.AppConfig` read by `StartFiberApp`. -/
structure AppConfig where
  Port : Int
  SwaggerEnabled : Bool
  deriving DecidableEq, Repr

/-- Calls received by the `fiber.App`. -/
inductive AppCall where
  | Listen (addr : String)
  | Shutdown
  deriving DecidableEq, Repr

/-- Levels of the root logger calls made by the hooks. -/
inductive Level where
  | Info
  | Fatal
  deriving DecidableEq, Repr

/-- The calls made by the lifecycle hooks. -/
inductive Effect where
  /-- A method call on the probe server. -/
  | Probe (o : Op)
  /-- The return of `ListenAndServe` in the goroutine of `ProbeServer.Start`. -/
  | ProbeServe (err : Option Error)
  /-- Go `logger.Info(msg)`. -/
  | Info (msg : String)
  /-- Go `logger.Fatal(msg, zap.Error(err))`: the entry is written and the
  process exits, so nothing follows it. -/
  | Fatal (msg : String) (err : Error)
  /-- Go `app.Listen(addr)`. -/
  | Listen (addr : String)
  /-- Go `app.Shutdown()`. -/
  | Shutdown
  /-- Go `time.Sleep`, in seconds. -/
  | Sleep (seconds : Nat)
  deriving DecidableEq, Repr

/-- What the hooks act on. -/
structure World where
  probeServer : ProbeServer
  log : List (Level × String × Option Error)
  appCalls : List AppCall
  deriving DecidableEq, Repr

/-- Go `http.ErrServerClosed`. -/
def ErrServerClosed : Error := "http: Server closed"

/-- Whether a call ends the process: `logger.Fatal` does, through `os.Exit(1)`
(the logger built in `logger/fx.go` sets no other fatal hook). -/
def Effect.exits : Effect → Bool
  | Effect.Fatal _ _ => true
  | _ => false

/-- The state in which one call made by the running process leaves it.  That a
call may also end the process is `Effect.exits`; `exec`, `stateAt` and
`Running.step` make no call after such a one. -/
def Effect.apply (e : Effect) (w : World) : World :=
  match e with
  | Effect.Probe o => { w with probeServer := o.apply w.probeServer }
  | Effect.ProbeServe err =>
    { w with probeServer := Probe.Start.serve w.probeServer err ErrServerClosed }
  | Effect.Info msg => { w with log := w.log ++ [(Level.Info, msg, none)] }
  | Effect.Fatal msg err => { w with log := w.log ++ [(Level.Fatal, msg, some err)] }
  | Effect.Listen addr => { w with appCalls := w.appCalls ++ [AppCall.Listen addr] }
  | Effect.Shutdown => { w with appCalls := w.appCalls ++ [AppCall.Shutdown] }
  | Effect.Sleep _ => w

/-- The state after a sequence of calls, first call first; the calls that come
after one that ends the process are not made. -/
def exec : List Effect → World → World
  | [], w => w
  | e :: es, w => if e.exits then e.apply w else exec es (e.apply w)

/-- The state in which the first call `e` of the sequence `es` is made: the
state reached by the calls before it.  `none` when `e` is never called, be it
that it is not in the sequence or that the process has ended before. -/
def stateAt (e : Effect) : List Effect → World → Option World
  | [], _ => none
  | x :: xs, w =>
    if x = e then some w
    else if x.exits then none
    else stateAt e xs (x.apply w)

/-- One run of a hook function: the calls it makes before returning, the
goroutines it launches (each by the calls it makes), and the error returned. -/
structure Run where
  effects : List Effect
  goroutines : List (List Effect)
  result : Option Error
  deriving DecidableEq, Repr

/-- Go `fx.Hook`, each function given by what a run of it does. -/
structure Hook where
  OnStart : Run
  OnStop : Run
  deriving DecidableEq, Repr

/-- Results of the library calls made by the hooks. -/
structure Externals where
  probeServe : Option Error
  probeShutdown : Option Error
  listen : Option Error
  appShutdown : Option Error
  deriving DecidableEq, Repr

/-- The hook appended by `probe.Module`: `OnStart: probe.Start`,
`OnStop: probe.Stop`. -/
def probeHook (ext : Externals) : Hook :=
  { OnStart :=
      { effects := [Effect.Probe Op.Start]
        goroutines := [[Effect.ProbeServe ext.probeServe]]
        result := none }
    OnStop :=
      { effects := [Effect.Probe (Op.Stop ext.probeShutdown)]
        goroutines := []
        result := ext.probeShutdown } }

/-- The `OnStart` function of the hook appended by `StartFiberApp`; `hasProbe`
says that `probeServer != nil`, `listen` is what `app.Listen` returns. -/
def StartFiberApp.OnStart (cfg : AppConfig) (hasProbe : Bool) (listen : Option Error) : Run :=
  { effects := []
    goroutines :=
      [ [Effect.Info ("🚀 Fiber server starting on :" ++ toString cfg.Port)]
          ++ (if cfg.SwaggerEnabled then
                [Effect.Info "📚 Swagger documentation is available at: /swagger"]
              else [])
          -- Mark startup as in progress
          ++ (if hasProbe then [Effect.Probe Op.MarkStartupComplete] else [])
          ++ [Effect.Listen (":" ++ toString cfg.Port)]
          ++ (match listen with
              | some err => [Effect.Fatal "Fiber server failed to start" err]
              | none => []),
        -- Wait a bit to ensure server has started properly, then mark as ready
        if hasProbe then
          [Effect.Sleep 1, Effect.Probe Op.MarkReady,
            Effect.Info "🟢 Service marked as ready for traffic"]
        else [] ]
    result := none }

/-- The `OnStop` function of the hook appended by `StartFiberApp`; `shutdown` is
what `app.Shutdown()` returns. -/
def StartFiberApp.OnStop (hasProbe : Bool) (shutdown : Option Error) : Run :=
  { effects :=
      -- Mark service as not ready before shutdown
      (if hasProbe then [Effect.Probe Op.MarkNotReady] else [])
        ++ [Effect.Info "🛑 Shutting down Fiber server", Effect.Shutdown]
    goroutines := []
    result := shutdown }

/-- Go `StartFiberApp`: the hook it appends to the lifecycle. -/
def StartFiberApp (cfg : AppConfig) (hasProbe : Bool) (ext : Externals) : Hook :=
  { OnStart := StartFiberApp.OnStart cfg hasProbe ext.listen
    OnStop := StartFiberApp.OnStop hasProbe ext.appShutdown }

/-- The hooks of `bootstrap.Module` in the order they are appended: the
options are applied in the order listed, `probe.Module` before `server.Module`
(the database, cache and broker modules are commented out, and
`internal.Module` appends no hook).  The probe server injected into
`StartFiberApp` is the one made by `NewProbeServer`, never nil. -/
def Module (cfg : AppConfig) (ext : Externals) : List Hook :=
  [probeHook ext, StartFiberApp cfg true ext]

/-- The calls made when the `fx` lifecycle stops hooks that were all started:
the `OnStop` functions run in the reverse of the order in which the hooks were
appended, each one whatever the earlier ones returned. -/
def lifecycleStop : List Hook → List Effect
  | [] => []
  | h :: rest => lifecycleStop rest ++ h.OnStop.effects

/-- The process while goroutines run: the state, for each goroutine the calls it
has still to make, and whether the process has exited. -/
structure Running where
  world : World
  goroutines : List (List Effect)
  exited : Bool
  deriving DecidableEq, Repr

/-- The scheduler lets goroutine number `i` make its next call.  Nothing happens
once the process has exited, for a goroutine that has finished, and for a
number that names no goroutine. -/
def Running.step (r : Running) (i : Nat) : Running :=
  if r.exited then r
  else
    match r.goroutines.get? i with
    | some (e :: rest) => ⟨e.apply r.world, r.goroutines.set i rest, e.exits⟩
    | _ => r

/-- The process after the scheduler has made the choices `sched` in turn. -/
def Running.run (r : Running) (sched : List Nat) : Running :=
  sched.foldl Running.step r

/-- A server state in which the service is up: started, startup complete, ready. -/
def world0 : World :=
  { probeServer := Probe.started0.MarkStartupComplete.MarkReady
    log := []
    appCalls := [AppCall.Listen ":8080"] }

/-- The default application configuration. -/
def appCfg0 : AppConfig := ⟨8080, true⟩

/-- Library calls that all succeed. -/
def ext0 : Externals := ⟨none, none, none, none⟩

end Server

/-! # Request validation

An embedding of `src/internal/middleware/validator.go`, with the parts of
`src/internal/model/validation.go` and `src/internal/utils/response.go` it
uses.  The `go-playground/validator` instance and the body parser of `fiber`
are arguments. -/

namespace Model

/-- Go `model.ValidationError`. -/
structure ValidationError where
  Field : String
  Tag : String
  Value : String
  Message : String
  deriving DecidableEq, Repr

end Model

namespace Validator

/-- Go `validator.FieldError`, by the three methods the code calls. -/
structure FieldError where
  Field : String
  Tag : String
  Param : String
  deriving DecidableEq, Repr

/-- The non-nil errors `validate.Struct` returns: the field errors found, or
`*validator.InvalidValidationError` for a value that is not a struct. -/
inductive StructError where
  | ValidationErrors (es : List FieldError)
  | InvalidValidationError (type : String)
  deriving DecidableEq, Repr

end Validator

namespace Utils

/-- Go `utils.ErrorInfo`; `Details` is nil or the validation errors. -/
structure ErrorInfo where
  Code : String
  Message : String
  Details : Option (List Model.ValidationError)
  deriving DecidableEq, Repr

/-- Go `utils.MetaInfo`. -/
structure MetaInfo where
  Page : Int
  PageSize : Int
  TotalPages : Int
  TotalCount : Int
  deriving DecidableEq, Repr

/-- Go `utils.Response`; `Data` is nil or the rendered payload. -/
structure Response where
  Success : Bool
  Data : Option String
  Error : Option ErrorInfo
  Meta : Option MetaInfo
  deriving DecidableEq, Repr

/-- Go `fiber.Ctx` as the validators use it: the request body, the response
status and JSON body, and the locals. -/
structure Ctx (T : Type) where
  request : String
  status : Nat
  body : Option Response
  locals : List (String × T)

/-- Go `c.Locals(key, value)`: the newest binding of a key is the one read. -/
def Ctx.Locals {T : Type} (c : Ctx T) (key : String) (value : T) : Ctx T :=
  { c with locals := (key, value) :: c.locals }

/-- Go `c.Locals(key)`. -/
def Ctx.local? {T : Type} (c : Ctx T) (key : String) : Option T :=
  c.locals.lookup key

/-- Go `fiber.StatusBadRequest`. -/
def StatusBadRequest : Nat := 400

/-- Go `utils.NewResponse`. -/
def NewResponse : Response :=
  { Success := true, Data := none, Error := none, Meta := none }

/-- Go `(*Response).WithError`. -/
def Response.WithError (r : Response) (code message : String)
    (details : Option (List Model.ValidationError)) : Response :=
  let r := { r with Success := false }
  { r with Error := some { Code := code, Message := message, Details := details } }

/-- Go `(*Response).Send`: `c.Status(status).JSON(r)`. -/
def Response.Send {T : Type} (r : Response) (c : Ctx T) (status : Nat) : Ctx T × Option Probe.Error :=
  ({ c with status := status, body := some r }, none)

/-- Go `utils.Error`. -/
def Error {T : Type} (c : Ctx T) (status : Nat) (code message : String)
    (details : Option (List Model.ValidationError)) : Ctx T × Option Probe.Error :=
  (NewResponse.WithError code message details).Send c status

/-- Go `utils.BadRequest`. -/
def BadRequest {T : Type} (c : Ctx T) (code message : String)
    (details : Option (List Model.ValidationError)) : Ctx T × Option Probe.Error :=
  Error c StatusBadRequest code message details

end Utils

namespace Middleware

open Probe (Error)
open Validator (FieldError StructError)
open Model (ValidationError)
open Utils (Ctx)

/-- Go `getErrorMsg`. -/
def getErrorMsg (fe : FieldError) : String :=
  if fe.Tag = "required" then "This field is required"
  else if fe.Tag = "email" then "Please enter a valid email address"
  else if fe.Tag = "min" then "Does not meet minimum length requirement"
  else if fe.Tag = "max" then "Exceeds maximum length limit"
  else if fe.Tag = "eqfield" then "Fields do not match"
  else if fe.Tag = "len" then "Must be exactly " ++ fe.Param ++ " characters long"
  else if fe.Tag = "alphanum" then "Must contain only alphanumeric characters"
  else if fe.Tag = "numeric" then "Must contain only numeric characters"
  else if fe.Tag = "uuid" then "Must be a valid UUID"
  else "Validation error on field: " ++ fe.Field

/-- The body of the loop of `ValidateStruct`: the element built from one field
error and appended to `errors`. -/
def ValidateStruct.element (err : FieldError) : ValidationError :=
  { Field := err.Field, Tag := err.Tag, Value := err.Param, Message := getErrorMsg err }

/-- Go `ValidateStruct`; `validate` is `validate.Struct`.  The result is
`Except.error` when the type assertion `err.(validator.ValidationErrors)`
panics. -/
def ValidateStruct {T : Type} (validate : T → Option StructError) (payload : T) :
    Except String (List ValidationError) :=
  let errors : List ValidationError := []
  match validate payload with
  | none => Except.ok errors
  | some (StructError.ValidationErrors es) =>
    Except.ok (es.foldl (fun errors err => errors ++ [ValidateStruct.element err]) errors)
  | some (StructError.InvalidValidationError _) =>
    Except.error ("interface conversion: error is *validator.InvalidValidationError, " ++
      "not validator.ValidationErrors")

/-- How a handler ends: it returns `err` having written its response, or it
returns `c.Next()`, handing the context to the next handler. -/
inductive Handled (T : Type) where
  | sent (c : Ctx T) (err : Option Error)
  | next (c : Ctx T)

/-- The handler returned by Go `RequestValidator[T]`; `BodyParser` is
`c.BodyParser` into a new `T`. -/
def RequestValidator {T : Type} (BodyParser : Ctx T → Except Error T)
    (validate : T → Option StructError) (c : Ctx T) : Except String (Handled T) :=
  -- Parse the request body
  match BodyParser c with
  | Except.error _ =>
    let (c, err) := Utils.BadRequest c "invalid_request" "Invalid request body format" none
    Except.ok (Handled.sent c err)
  | Except.ok requestData =>
    -- Validate the struct
    match ValidateStruct validate requestData with
    | Except.error p => Except.error p
    | Except.ok errors =>
      if errors.length > 0 then
        let (c, err) := Utils.BadRequest c "validation_error" "Validation failed" (some errors)
        Except.ok (Handled.sent c err)
      else
        -- Store the validated payload in context locals
        let c := c.Locals "payload" requestData
        Except.ok (Handled.next c)

/-- A request body parser for string payloads: an empty body does not parse. -/
def parse0 (c : Ctx String) : Except Error String :=
  if c.request = "" then Except.error "unexpected end of JSON input" else Except.ok c.request

/-- A validator for string payloads with one rule: at most three characters. -/
def validate0 (s : String) : Option StructError :=
  if s.length ≤ 3 then none
  else some (StructError.ValidationErrors [⟨"Name", "max", "3"⟩])

end Middleware

/-! # Kafka client

An embedding of `CreateReader` and `Close` of `src/bootstrap/kafka/kafka.go`.
A Go map is a list of key-value pairs with distinct keys; the order of the list
stands for the order in which one `range` over the map visits it, which Go
leaves unspecified. -/

namespace KafkaClient

open Probe (Error)

/-- The part of `config.KafkaConfig` read by `CreateReader` and `CreateWriter`. -/
structure KafkaConfig where
  Brokers : List String
  Async : Bool
  BatchSize : Int
  BatchTimeoutMs : Int
  AllowAutoTopicCreation : Bool
  MinBytes : Int
  MaxBytes : Int
  CommitIntervalMs : Int
  deriving DecidableEq, Repr

/-- Go `kafka.Reader`, by the `kafka.ReaderConfig` it was made from. -/
structure Reader where
  Brokers : List String
  Topic : String
  GroupID : String
  MinBytes : Int
  MaxBytes : Int
  CommitIntervalMs : Int
  deriving DecidableEq, Repr

/-- Go `kafka.Writer`, by the fields set in `CreateWriter`. -/
structure Writer where
  Addr : List String
  Topic : String
  AllowAutoTopicCreation : Bool
  BatchTimeoutMs : Int
  BatchSize : Int
  Async : Bool
  deriving DecidableEq, Repr

/-- Levels of the zap calls made by the client. -/
inductive Level where
  | Info
  | Error
  deriving DecidableEq, Repr

/-- One zap log call with its string fields. -/
structure LogEntry where
  level : Level
  msg : String
  fields : List (String × String)
  deriving DecidableEq, Repr

/-- Go `type Kafka struct`: `Conn` is `none` for a nil connection, otherwise the
broker address dialled. -/
structure Kafka where
  Config : KafkaConfig
  Logger : List LogEntry
  Writers : List (String × Writer)
  Readers : List (String × Reader)
  Conn : Option String
  deriving DecidableEq, Repr

/-- Go `(*Kafka).CreateReader`: the client afterwards and the reader returned,
for a configuration that `kafka.NewReader` accepts.  On a configuration it
rejects `kafka.NewReader` panics and nothing is cached; that is left out. -/
def Kafka.CreateReader (k : Kafka) (topic groupID : String) : Kafka × Reader :=
  let key := topic ++ "-" ++ groupID
  match k.Readers.lookup key with
  | some reader => (k, reader)
  | none =>
    let reader : Reader :=
      { Brokers := k.Config.Brokers
        Topic := topic
        GroupID := groupID
        MinBytes := k.Config.MinBytes
        MaxBytes := k.Config.MaxBytes
        CommitIntervalMs := k.Config.CommitIntervalMs }
    let k := { k with Readers := k.Readers ++ [(key, reader)] }
    let k := { k with Logger := k.Logger ++
      [⟨Level.Info, "Created Kafka reader", [("topic", topic), ("groupID", groupID)]⟩] }
    (k, reader)

/-- A `Close` call made by `(*Kafka).Close`. -/
inductive Closed where
  | reader (key : String)
  | writer (topic : String)
  | conn
  deriving DecidableEq, Repr

/-- Results of the `Close` calls of the library: per reader key, per writer
topic, and for the main connection. -/
structure CloseResults where
  reader : String → Option Error
  writer : String → Option Error
  conn : Option Error

/-- The variables of `(*Kafka).Close` while it runs: the logger, `lastErr`, and
the `Close` calls made so far. -/
structure Closing where
  Logger : List LogEntry
  lastErr : Option Error
  closed : List Closed
  deriving DecidableEq, Repr

/-- One iteration of the loop over `k.Readers`. -/
def Close.reader (res : CloseResults) (st : Closing) (entry : String × Reader) : Closing :=
  let st := { st with closed := st.closed ++ [Closed.reader entry.1] }
  match res.reader entry.1 with
  | some err =>
    { st with
      Logger := st.Logger ++
        [⟨Level.Error, "Failed to close Kafka reader", [("reader", entry.1), ("error", err)]⟩]
      lastErr := some err }
  | none => st

/-- One iteration of the loop over `k.Writers`. -/
def Close.writer (res : CloseResults) (st : Closing) (entry : String × Writer) : Closing :=
  let st := { st with closed := st.closed ++ [Closed.writer entry.1] }
  match res.writer entry.1 with
  | some err =>
    { st with
      Logger := st.Logger ++
        [⟨Level.Error, "Failed to close Kafka writer", [("topic", entry.1), ("error", err)]⟩]
      lastErr := some err }
  | none => st

/-- The `if k.Conn != nil` block of `(*Kafka).Close`. -/
def Close.conn (res : CloseResults) (k : Kafka) (st : Closing) : Closing :=
  match k.Conn with
  | some _ =>
    let st := { st with closed := st.closed ++ [Closed.conn] }
    match res.conn with
    | some err =>
      { st with
        Logger := st.Logger ++
          [⟨Level.Error, "Failed to close Kafka connection", [("error", err)]⟩]
        lastErr := some err }
    | none => st
  | none => st

/-- Go `(*Kafka).Close`: the variables when it returns; it returns `lastErr`. -/
def Kafka.Close (k : Kafka) (res : CloseResults) : Closing :=
  let st : Closing := { Logger := k.Logger, lastErr := none, closed := [] }
  -- Close all readers
  let st := k.Readers.foldl (Close.reader res) st
  -- Close all writers
  let st := k.Writers.foldl (Close.writer res) st
  -- Close main connection
  let st := Close.conn res k st
  { st with Logger := st.Logger ++ [⟨Level.Info, "Kafka connections closed", []⟩] }

/-- A configuration with one broker. -/
def config0 : KafkaConfig :=
  { Brokers := ["localhost:9092"], Async := true, BatchSize := 100, BatchTimeoutMs := 1000,
    AllowAutoTopicCreation := true, MinBytes := 10240, MaxBytes := 10485760,
    CommitIntervalMs := 1000 }

/-- A client as `NewKafka` returns it: no reader, no writer, connected. -/
def kafka0 : Kafka :=
  { Config := config0, Logger := [], Writers := [], Readers := [], Conn := some "localhost:9092" }

end KafkaClient

/-! # ClickHouse migrations

An embedding of `migrate` of `src/bootstrap/clickhouse/clickhouse.go`.  The
file system calls and the driver's `Exec` are arguments; the connection keeps
the `Exec` calls it has received, each with the error it returned. -/

namespace ClickHouseClient

open Probe (Error)

/-- Go `filepath.Ext`, scanning from the last character backwards: `rev` is
what is still to scan, last character first, `acc` what has been scanned. -/
def Ext.scan : List Char → List Char → String
  | [], _ => ""
  | c :: rev, acc =>
    if c = '/' then ""
    else if c = '.' then String.mk ('.' :: acc)
    else Ext.scan rev (c :: acc)

/-- Go `filepath.Ext`: the suffix of the last path element that starts at its
last dot, or the empty string when it has no dot. -/
def Ext (path : String) : String :=
  Ext.scan path.data.reverse []

/-- Levels of the zap calls made by `migrate`. -/
inductive Level where
  | Info
  | Error
  deriving DecidableEq, Repr

/-- One zap log call with its string fields. -/
structure LogEntry where
  level : Level
  msg : String
  fields : List (String × String)
  deriving DecidableEq, Repr

/-- Go `driver.Conn`: the database state, and the queries passed to `Exec` so
far, each with the error `Exec` returned. -/
structure Conn (σ : Type) where
  state : σ
  calls : List (String × Option Error)

/-- The file system as `migrate` sees it, and the database. -/
structure Env (σ : Type) where
  /-- The directory computed from `runtime.Caller`. -/
  migrationsDir : String
  /-- Whether `os.IsNotExist` holds of the error of `os.Stat(migrationsDir)`. -/
  notExist : Bool
  /-- Go `os.ReadDir(migrationsDir)`: the names of the entries, in listing order. -/
  ReadDir : Except Error (List String)
  /-- Go `os.ReadFile`. -/
  ReadFile : String → Except Error String
  /-- What executing a query does to the database, and the error it gives. -/
  Exec : σ → String → σ × Option Error

/-- Go `c.Client.Exec(ctx, query)`. -/
def Conn.Exec {σ : Type} (conn : Conn σ) (env : Env σ) (query : String) :
    Conn σ × Option Error :=
  let (state, err) := env.Exec conn.state query
  ({ state := state, calls := conn.calls ++ [(query, err)] }, err)

/-- Go `type ClickHouse struct`. -/
structure ClickHouse (σ : Type) where
  Client : Conn σ
  Logger : List LogEntry

/-- Go `c.Logger.Info`. -/
def ClickHouse.logInfo {σ : Type} (c : ClickHouse σ) (msg : String)
    (fields : List (String × String)) : ClickHouse σ :=
  { c with Logger := c.Logger ++ [⟨Level.Info, msg, fields⟩] }

/-- Go `c.Logger.Error`. -/
def ClickHouse.logError {σ : Type} (c : ClickHouse σ) (msg : String)
    (fields : List (String × String)) : ClickHouse σ :=
  { c with Logger := c.Logger ++ [⟨Level.Error, msg, fields⟩] }

/-- Go `filepath.Join(migrationsDir, name)` for a directory entry `name`. -/
def Join (dir name : String) : String := dir ++ "/" ++ name

/-- The `for _, file := range files` loop of `migrate`, over the names still to
visit: the client when the loop is left, and the error returned from inside the
loop if any. -/
def migrate.loop {σ : Type} (env : Env σ) :
    List String → ClickHouse σ → ClickHouse σ × Option Error
  | [], c => (c, none)
  | name :: rest, c =>
    if Ext name ≠ ".sql" then migrate.loop env rest c
    else
      let filePath := Join env.migrationsDir name
      match env.ReadFile filePath with
      | Except.error err =>
        migrate.loop env rest
          (c.logError "Failed to read migration file" [("file", name), ("error", err)])
      | Except.ok content =>
        let query := content
        let (client, err) := c.Client.Exec env query
        let c := { c with Client := client }
        match err with
        | some err =>
          (c.logError "Failed to execute migration" [("file", name), ("error", err)],
            some ("failed to execute migration " ++ name ++ ": " ++ err))
        | none =>
          migrate.loop env rest (c.logInfo "Migration executed successfully" [("file", name)])

/-- Go `(*ClickHouse).migrate`. -/
def ClickHouse.migrate {σ : Type} (c : ClickHouse σ) (env : Env σ) :
    ClickHouse σ × Option Error :=
  let c := c.logInfo "🪿 Running ClickHouse migrations" []
  if env.notExist then
    (c.logError "ClickHouse migrations directory not found" [("path", env.migrationsDir)],
      some ("clickhouse migrations directory not found: " ++ env.migrationsDir))
  else
    match env.ReadDir with
    | Except.error err =>
      (c.logError "Failed to read migrations directory" [("error", err)],
        some ("failed to read migrations directory: " ++ err))
    | Except.ok files =>
      match migrate.loop env files c with
      | (c, some err) => (c, some err)
      | (c, none) => (c.logInfo "✅ ClickHouse migrations completed" [], none)

/-- Go `(*ClickHouse).onStart`. -/
def ClickHouse.onStart {σ : Type} (c : ClickHouse σ) (env : Env σ) :
    ClickHouse σ × Option Error :=
  c.migrate env

/-- The entries of a listing that a migration run is to execute, as the
specification words it: those whose extension is `.sql` and whose file can be
read, each with its contents, in listing order. -/
def toExecute {σ : Type} (env : Env σ) (files : List String) : List (String × String) :=
  (files.filter (fun name => Ext name = ".sql")).filterMap (fun name =>
    match env.ReadFile (Join env.migrationsDir name) with
    | Except.ok content => some (name, content)
    | Except.error _ => none)

/-- A migrations directory with two readable `.sql` files, one unreadable one
and a readme, on a database that counts the queries run and rejects the query
`DROP TABLE u`. -/
def env0 : Env Nat :=
  { migrationsDir := "migrations/clickhouse"
    notExist := false
    ReadDir := Except.ok ["001_init.sql", "002_locked.sql", "003_drop.sql", "README.md"]
    ReadFile := fun path =>
      if path = "migrations/clickhouse/001_init.sql" then Except.ok "CREATE TABLE t (x Int32)"
      else if path = "migrations/clickhouse/003_drop.sql" then Except.ok "DROP TABLE u"
      else if path = "migrations/clickhouse/README.md" then Except.ok "notes"
      else Except.error "permission denied"
    Exec := fun n query =>
      if query = "DROP TABLE u" then (n, some "table u does not exist") else (n + 1, none) }

/-- A connected client that has run nothing yet. -/
def clickhouse0 : ClickHouse Nat := ⟨⟨0, []⟩, []⟩

end ClickHouseClient

/-! # Error handler

An embedding of `src/internal/middleware/errorHandler.go`.  A Go error is a
`*fiber.Error` (possibly a nil pointer of that type), another error that wraps
nothing, an error that wraps one error (`Unwrap() error`), or an error that
wraps several (`Unwrap() []error`).  The response is the one held by the
context when the handler returns: its status as `Response.StatusCode()` reports
it and the body set by `JSON`. -/

namespace ErrorHandling

mutual
/-- Go `error` values as `errors.As` can tell them apart. -/
inductive GoError where
  /-- A non-nil `*fiber.Error` with its `Code` and `Message`. -/
  | fiber (Code : Int) (Message : String)
  /-- A nil pointer of type `*fiber.Error` held in an `error`. -/
  | nilFiber
  /-- An error of another type that wraps nothing; `msg` is its `Error()`. -/
  | plain (msg : String)
  /-- An error of another type whose `Unwrap()` is the error `inner`; `msg` is
  its `Error()`. -/
  | wrap (msg : String) (inner : GoError)
  /-- An error of another type whose `Unwrap()` is the list `inners` (its nil
  entries left out); `msg` is its `Error()`. -/
  | join (msg : String) (inners : GoErrors)
  deriving Repr
/-- A list of errors, as `Unwrap() []error` returns it. -/
inductive GoErrors where
  | nil
  | cons (head : GoError) (tail : GoErrors)
  deriving Repr
end

/-- The panic of a nil pointer dereference. -/
def nilDereference : String :=
  "runtime error: invalid memory address or nil pointer dereference"

/-- Go `err.Error()`; for a `*fiber.Error` it is the `Message`, and it panics
on a nil pointer. -/
def GoError.Error : GoError → Except String String
  | GoError.fiber _ msg => Except.ok msg
  | GoError.nilFiber => Except.error nilDereference
  | GoError.plain msg => Except.ok msg
  | GoError.wrap msg _ => Except.ok msg
  | GoError.join msg _ => Except.ok msg

mutual
/-- Go `errors.As(err, &e)` for `e` of type `*fiber.Error`: `none` when it
returns false; otherwise the pointer put into `e`, the first of that type met
when going through `err` depth first: `some none` for a nil pointer, else the
`Code` and `Message` it points to. -/
def GoError.asFiber : GoError → Option (Option (Int × String))
  | GoError.fiber code msg => some (some (code, msg))
  | GoError.nilFiber => some none
  | GoError.plain _ => none
  | GoError.wrap _ inner => inner.asFiber
  | GoError.join _ inners => inners.asFiber
/-- The loop of `errors.As` over the errors of an `Unwrap() []error`. -/
def GoErrors.asFiber : GoErrors → Option (Option (Int × String))
  | GoErrors.nil => none
  | GoErrors.cons e rest =>
    match e.asFiber with
    | some r => some r
    | none => rest.asFiber
end

mutual
/-- The errors that an error is or wraps, in the order in which `errors.As`
goes through them: the error itself, then what it wraps, depth first. -/
def GoError.chain : GoError → List GoError
  | GoError.fiber code msg => [GoError.fiber code msg]
  | GoError.nilFiber => [GoError.nilFiber]
  | GoError.plain msg => [GoError.plain msg]
  | GoError.wrap msg inner => GoError.wrap msg inner :: inner.chain
  | GoError.join msg inners => GoError.join msg inners :: inners.chain
/-- The same for the errors of an `Unwrap() []error`, one after the other. -/
def GoErrors.chain : GoErrors → List GoError
  | GoErrors.nil => []
  | GoErrors.cons e rest => e.chain ++ rest.chain
end

/-- Whether an error has type `*fiber.Error`, nil pointer or not. -/
def GoError.isFiber : GoError → Bool
  | GoError.fiber _ _ => true
  | GoError.nilFiber => true
  | _ => false

/-- The first error of type `*fiber.Error` in a list of errors, given as
`GoError.asFiber` gives it. -/
def firstFiber : List GoError → Option (Option (Int × String))
  | [] => none
  | GoError.fiber code msg :: _ => some (some (code, msg))
  | GoError.nilFiber :: _ => some none
  | _ :: rest => firstFiber rest

/-- Go `type ErrorResponse struct`. -/
structure ErrorResponse where
  Message : String
  Code : Int
  deriving DecidableEq, Repr

/-- Go `fiber.Ctx` as `ErrorHandler` uses it: the status code stored in the
response and the value set as its JSON body. -/
structure Ctx where
  statusCode : Int
  body : Option ErrorResponse
  deriving DecidableEq, Repr

/-- Go `fiber.StatusInternalServerError`. -/
def StatusInternalServerError : Int := 500

/-- Go `c.Status(status)`: `Response.SetStatusCode(status)` stores the code. -/
def Ctx.Status (c : Ctx) (status : Int) : Ctx :=
  { c with statusCode := status }

/-- Go `Response.StatusCode()`, the status the response carries: a stored code
of 0 counts as 200. -/
def Ctx.StatusCode (c : Ctx) : Int :=
  if c.statusCode = 0 then 200 else c.statusCode

/-- Go `c.JSON(v)` for an `ErrorResponse`, which always encodes. -/
def Ctx.JSON (c : Ctx) (v : ErrorResponse) : Ctx × Option Probe.Error :=
  ({ c with body := some v }, none)

/-- Go `ErrorHandler`; `Except.error` is a panic. -/
def ErrorHandler (c : Ctx) (err : GoError) : Except String (Ctx × Option Probe.Error) :=
  let code := StatusInternalServerError
  match err.asFiber with
  | some none => Except.error nilDereference
  | found =>
    let code := match found with
      | some (some e) => e.1
      | _ => code
    match err.Error with
    | Except.error p => Except.error p
    | Except.ok message => Except.ok ((c.Status code).JSON { Message := message, Code := code })

/-- A context on which no status and no body has been set. -/
def ctx0 : Ctx := ⟨0, none⟩

end ErrorHandling

namespace Middleware

/-- Values that can be passed as the `interface{}` payload of `ValidateStruct`:
nil, a value that is not a struct, and a struct with one field `Name` tagged
`validate:"required"`. -/
inductive Payload where
  | nil
  | number (n : Int)
  | user (Name : String)
  deriving DecidableEq, Repr

/-- Go `validate.Struct` on those values, after the documentation of the
validator: `*InvalidValidationError` for nil and for a value that is not a
struct, the field errors for a struct that breaks its tags, nil otherwise. -/
def validateStruct1 : Payload → Option Validator.StructError
  | Payload.nil => some (Validator.StructError.InvalidValidationError "nil")
  | Payload.number _ => some (Validator.StructError.InvalidValidationError "int")
  | Payload.user name =>
    if name = "" then some (Validator.StructError.ValidationErrors [⟨"Name", "required", ""⟩])
    else none

/-- A request context with an empty body and nothing sent. -/
def ctx1 : Utils.Ctx Payload := ⟨"", 200, none, []⟩

end Middleware

namespace Probe

/-! ## Flag effect of single operations -/

theorem readyFlag_apply_of_ne_markReady (o : Op) (p : ProbeServer)
    (ho : o ≠ Op.MarkReady) (hp : p.readyFlag = false) :
    (o.apply p).readyFlag = false := by
  cases o <;>
    simp_all [Op.apply, ProbeServer.Start, ProbeServer.Stop, ProbeServer.MarkNotReady,
      ProbeServer.MarkStartupComplete]
  rename_i r
  cases r <;> rfl

theorem startupFlag_apply_of_ne_start (o : Op) (p : ProbeServer)
    (ho : o ≠ Op.Start) (hp : p.startupFlag = true) :
    (o.apply p).startupFlag = true := by
  cases o <;>
    simp_all [Op.apply, ProbeServer.Stop, ProbeServer.MarkReady, ProbeServer.MarkNotReady,
      ProbeServer.MarkStartupComplete]
  rename_i r
  cases r <;> simp [hp]

theorem shutdownFlag_apply_of_ne_start (o : Op) (p : ProbeServer)
    (ho : o ≠ Op.Start) (hp : p.shutdownFlag = true) :
    (o.apply p).shutdownFlag = true := by
  cases o <;>
    simp_all [Op.apply, ProbeServer.Stop, ProbeServer.MarkReady, ProbeServer.MarkNotReady,
      ProbeServer.MarkStartupComplete]
  rename_i r
  cases r <;> rfl

theorem stop_flags (p : ProbeServer) (r : Option Error) :
    (p.Stop r).1.readyFlag = false ∧ (p.Stop r).1.shutdownFlag = true ∧
      (p.Stop r).1.startupFlag = p.startupFlag ∧ (p.Stop r).2 = r := by
  cases r <;> simp [ProbeServer.Stop]

theorem run_nil (p : ProbeServer) : run [] p = p := rfl

theorem run_cons (o : Op) (ops : List Op) (p : ProbeServer) :
    run (o :: ops) p = run ops (o.apply p) := rfl

theorem run_append (xs ys : List Op) (p : ProbeServer) :
    run (xs ++ ys) p = run ys (run xs p) := by
  simp [run, List.foldl_append]

/-! ## Invariants along sequences -/

theorem readyFlag_run_of_no_markReady (ops : List Op) :
    ∀ p : ProbeServer, Op.MarkReady ∉ ops → p.readyFlag = false →
      (run ops p).readyFlag = false := by
  induction ops with
  | nil => intro p _ hp; simpa [run_nil] using hp
  | cons o rest ih =>
    intro p hmem hp
    rw [run_cons]
    have ho : o ≠ Op.MarkReady := fun h => hmem (by simp [h])
    have hrest : Op.MarkReady ∉ rest := fun h => hmem (List.mem_cons_of_mem _ h)
    exact ih _ hrest (readyFlag_apply_of_ne_markReady o p ho hp)

theorem startupFlag_run_of_no_start (ops : List Op) :
    ∀ p : ProbeServer, Op.Start ∉ ops → p.startupFlag = true →
      (run ops p).startupFlag = true := by
  induction ops with
  | nil => intro p _ hp; simpa [run_nil] using hp
  | cons o rest ih =>
    intro p hmem hp
    rw [run_cons]
    have ho : o ≠ Op.Start := fun h => hmem (by simp [h])
    have hrest : Op.Start ∉ rest := fun h => hmem (List.mem_cons_of_mem _ h)
    exact ih _ hrest (startupFlag_apply_of_ne_start o p ho hp)

/-! ## Readiness and shutdown -/

/-- C1, as stated, fails: on a started server, `Stop` followed by `MarkReady`
leaves `IsShuttingDown()` true and `IsReady()` true. -/
theorem C1_markReady_after_stop_is_ready :
    (started0.Stop none).1.IsShuttingDown = true ∧
      (run [Op.MarkReady] (started0.Stop none).1).IsShuttingDown = true ∧
      (run [Op.MarkReady] (started0.Stop none).1).IsReady = true := by
  refine ⟨rfl, rfl, rfl⟩

/-- C1 (amended): once `Stop` has been called, `IsReady()` is false after every
subsequent sequence of operations that contains no `MarkReady` call, whatever
the state before the `Stop` and whatever `Server.Shutdown` returned. -/
theorem C1_not_ready_after_stop (p : ProbeServer) (r : Option Error) (ops : List Op)
    (h : Op.MarkReady ∉ ops) :
    (run ops (p.Stop r).1).IsReady = false :=
  readyFlag_run_of_no_markReady ops _ h (stop_flags p r).1

theorem C1_not_ready_after_stop_witness :
    Op.MarkReady ∉ [Op.MarkStartupComplete, Op.MarkNotReady, Op.Stop (some "timeout")] ∧
      (run [Op.MarkStartupComplete, Op.MarkNotReady, Op.Stop (some "timeout")]
        (started0.MarkReady.Stop none).1).IsReady = false :=
  ⟨by decide, C1_not_ready_after_stop started0.MarkReady none _ (by decide)⟩

/-- C2: after a non-empty sequence of `MarkReady`/`MarkNotReady` calls,
`IsReady()` is the value set by the last call: true when the last call is
`MarkReady`, false when it is `MarkNotReady`, from every initial state. -/
theorem C2_isReady_reflects_last_call (p : ProbeServer) (ops : List Op)
    (hne : ops ≠ [])
    (hops : ∀ o ∈ ops, o = Op.MarkReady ∨ o = Op.MarkNotReady) :
    (ops.getLast hne = Op.MarkReady → (run ops p).IsReady = true) ∧
      (ops.getLast hne = Op.MarkNotReady → (run ops p).IsReady = false) ∧
      (ops.getLast hne = Op.MarkReady ∨ ops.getLast hne = Op.MarkNotReady) := by
  have hsplit : ops = ops.dropLast ++ [ops.getLast hne] :=
    (List.dropLast_append_getLast hne).symm
  have hrun : run ops p = (ops.getLast hne).apply (run ops.dropLast p) := by
    conv_lhs => rw [hsplit]
    rw [run_append]
    rfl
  refine ⟨fun hl => ?_, fun hl => ?_, hops _ (List.getLast_mem hne)⟩
  · rw [hrun, hl]; rfl
  · rw [hrun, hl]; rfl

theorem C2_isReady_reflects_last_call_witness :
    [Op.MarkReady, Op.MarkNotReady, Op.MarkReady, Op.MarkNotReady] ≠ [] ∧
      (∀ o ∈ [Op.MarkReady, Op.MarkNotReady, Op.MarkReady, Op.MarkNotReady],
        o = Op.MarkReady ∨ o = Op.MarkNotReady) ∧
      (run [Op.MarkReady, Op.MarkNotReady, Op.MarkReady, Op.MarkNotReady]
        started0).IsReady = false :=
  ⟨by decide, by decide,
    (C2_isReady_reflects_last_call started0
      [Op.MarkReady, Op.MarkNotReady, Op.MarkReady, Op.MarkNotReady]
      (by decide) (by decide)).2.1 rfl⟩

/-- C3: from every prior state, after `Stop` returns `IsShuttingDown()` is true
and `IsReady()` is false, and `Stop` returns what `Server.Shutdown` returned
(nil on success, that same error on failure). -/
theorem C3_stop_sets_flags_whatever_shutdown_returns (p : ProbeServer) :
    ((p.Stop none).1.IsShuttingDown = true ∧ (p.Stop none).1.IsReady = false ∧
        (p.Stop none).2 = none) ∧
      ∀ err : Error, (p.Stop (some err)).1.IsShuttingDown = true ∧
        (p.Stop (some err)).1.IsReady = false ∧ (p.Stop (some err)).2 = some err :=
  ⟨⟨rfl, rfl, rfl⟩, fun _ => ⟨rfl, rfl, rfl⟩⟩

/-! ## Health endpoints -/

theorem get_readyz_of_ready (p : ProbeServer) (hp : p.readyFlag = true) :
    get p "/readyz" = ⟨200, "OK"⟩ := by
  simp [get, mux, readyzHandler, hp]
  rfl

theorem get_readyz_of_not_ready (p : ProbeServer) (hp : p.readyFlag = false) :
    get p "/readyz" = ⟨503, "Service not ready yet"⟩ := by
  simp [get, mux, readyzHandler, hp]
  rfl

theorem get_startupz_of_complete (p : ProbeServer) (hp : p.startupFlag = true) :
    get p "/startupz" = ⟨200, "OK"⟩ := by
  simp [get, mux, startupzHandler, hp]
  rfl

theorem get_startupz_of_not_complete (p : ProbeServer) (hp : p.startupFlag = false) :
    get p "/startupz" = ⟨503, "Service starting up"⟩ := by
  simp [get, mux, startupzHandler, hp]
  rfl

theorem get_healthz (p : ProbeServer) : get p "/healthz" = ⟨200, "OK"⟩ := by
  simp [get, mux, healthzHandler]
  rfl

/-- C4: in every state, `/readyz` answers 200 with body `OK` exactly when
`IsReady()` is true and 503 with body `Service not ready yet` otherwise; two
states with the same ready flag get the same answer. -/
theorem C4_readyz_iff_isReady :
    (∀ p : ProbeServer, get p "/readyz" = ⟨200, "OK"⟩ ↔ p.IsReady = true) ∧
      (∀ p : ProbeServer, p.IsReady = false →
        get p "/readyz" = ⟨503, "Service not ready yet"⟩) ∧
      (∀ p q : ProbeServer, p.IsReady = q.IsReady → get p "/readyz" = get q "/readyz") := by
  refine ⟨fun p => ⟨fun h => ?_, get_readyz_of_ready p⟩, get_readyz_of_not_ready,
    fun p q hpq => ?_⟩
  · cases hp : p.readyFlag with
    | true => exact hp
    | false =>
      rw [get_readyz_of_not_ready p hp] at h
      exact absurd (congrArg Response.status h) (by decide)
  · cases hq : q.readyFlag with
    | true => rw [get_readyz_of_ready q hq, get_readyz_of_ready p (hpq.trans hq)]
    | false => rw [get_readyz_of_not_ready q hq, get_readyz_of_not_ready p (hpq.trans hq)]

/-- C5: in every state, `/startupz` answers 200 with body `OK` exactly when
`IsStartupComplete()` is true and 503 with body `Service starting up`
otherwise; two states with the same startup flag get the same answer. -/
theorem C5_startupz_iff_isStartupComplete :
    (∀ p : ProbeServer, get p "/startupz" = ⟨200, "OK"⟩ ↔ p.IsStartupComplete = true) ∧
      (∀ p : ProbeServer, p.IsStartupComplete = false →
        get p "/startupz" = ⟨503, "Service starting up"⟩) ∧
      (∀ p q : ProbeServer, p.IsStartupComplete = q.IsStartupComplete →
        get p "/startupz" = get q "/startupz") := by
  refine ⟨fun p => ⟨fun h => ?_, get_startupz_of_complete p⟩, get_startupz_of_not_complete,
    fun p q hpq => ?_⟩
  · cases hp : p.startupFlag with
    | true => exact hp
    | false =>
      rw [get_startupz_of_not_complete p hp] at h
      exact absurd (congrArg Response.status h) (by decide)
  · cases hq : q.startupFlag with
    | true => rw [get_startupz_of_complete q hq, get_startupz_of_complete p (hpq.trans hq)]
    | false =>
      rw [get_startupz_of_not_complete q hq, get_startupz_of_not_complete p (hpq.trans hq)]

/-- C6: for every combination of the ready, startup and shutting-down flags
`/healthz` answers 200 with body `OK`, so any two states get the same answer. -/
theorem C6_healthz_always_ok :
    (∀ p : ProbeServer, get p "/healthz" = ⟨200, "OK"⟩) ∧
      (∀ (p : ProbeServer) (ready startup shutdown : Bool),
        get { p with readyFlag := ready, startupFlag := startup, shutdownFlag := shutdown }
          "/healthz" = ⟨200, "OK"⟩) ∧
      (∀ p q : ProbeServer, get p "/healthz" = get q "/healthz") :=
  ⟨get_healthz, fun _ _ _ _ => get_healthz _,
    fun p q => (get_healthz p).trans (get_healthz q).symm⟩

/-! ## Startup and shutdown flags -/

/-- C7, as stated, fails: `Start` after `MarkStartupComplete` takes the startup
flag from true back to false. -/
theorem C7_start_clears_startup_flag :
    started0.MarkStartupComplete.IsStartupComplete = true ∧
      (run [Op.Start] started0.MarkStartupComplete).IsStartupComplete = false :=
  ⟨rfl, rfl⟩

/-- C7 (amended): after `MarkStartupComplete()`, `IsStartupComplete()` is true
after every subsequent sequence of `Stop`, `MarkReady`, `MarkNotReady` and
`MarkStartupComplete` calls, that is, every sequence without a `Start`. -/
theorem C7_startup_complete_persists (p : ProbeServer) (ops : List Op)
    (h : Op.Start ∉ ops) :
    (run ops p.MarkStartupComplete).IsStartupComplete = true :=
  startupFlag_run_of_no_start ops _ h rfl

theorem C7_startup_complete_persists_witness :
    Op.Start ∉ [Op.MarkReady, Op.Stop none, Op.MarkNotReady, Op.MarkStartupComplete] ∧
      (run [Op.MarkReady, Op.Stop none, Op.MarkNotReady, Op.MarkStartupComplete]
        started0.MarkStartupComplete).IsStartupComplete = true :=
  ⟨by decide, C7_startup_complete_persists started0 _ (by decide)⟩

/-- C8, as stated, fails: `Start` on a server that is shutting down clears the
shutting-down flag. -/
theorem C8_start_clears_shutdown_flag :
    (started0.Stop none).1.IsShuttingDown = true ∧
      (Op.Start.apply (started0.Stop none).1).IsShuttingDown = false :=
  ⟨rfl, rfl⟩

/-- C8 (amended): for every operation other than `Start` (`Stop`, `MarkReady`,
`MarkNotReady`, `MarkStartupComplete`), if `IsShuttingDown()` is true before the
operation it is true after it. -/
theorem C8_shutdown_flag_kept (p : ProbeServer) (o : Op)
    (ho : o ≠ Op.Start) (hp : p.IsShuttingDown = true) :
    (o.apply p).IsShuttingDown = true :=
  shutdownFlag_apply_of_ne_start o p ho hp

theorem C8_shutdown_flag_kept_witness :
    Op.MarkReady ≠ Op.Start ∧ (started0.Stop none).1.IsShuttingDown = true ∧
      (Op.MarkReady.apply (started0.Stop none).1).IsShuttingDown = true :=
  ⟨by decide, rfl, C8_shutdown_flag_kept (started0.Stop none).1 Op.MarkReady (by decide) rfl⟩

/-- C9: `MarkStartupComplete` is idempotent on the flags: from every state, the
three flags after two calls equal the three flags after one call, and
`IsStartupComplete()` is true after either. -/
theorem C9_markStartupComplete_idempotent (p : ProbeServer) :
    p.MarkStartupComplete.MarkStartupComplete.IsReady = p.MarkStartupComplete.IsReady ∧
      p.MarkStartupComplete.MarkStartupComplete.IsStartupComplete =
        p.MarkStartupComplete.IsStartupComplete ∧
      p.MarkStartupComplete.MarkStartupComplete.IsShuttingDown =
        p.MarkStartupComplete.IsShuttingDown ∧
      p.MarkStartupComplete.IsStartupComplete = true ∧
      p.MarkStartupComplete.MarkStartupComplete.IsStartupComplete = true :=
  ⟨rfl, rfl, rfl, rfl, rfl⟩

/-! ## Endpoint scenario -/

/-- C10: on a freshly created and started probe server, `/readyz` gives 503;
after `MarkStartupComplete()`, `/startupz` gives 200 and `/readyz` 503; after
`MarkReady()`, both give 200; after `Stop`, `/readyz` gives 503 and `/startupz`
still 200.  This holds for every configuration, logger and `Shutdown` result. -/
theorem C10_endpoint_scenario (cfg : Config) (logger : Logger) (r : Option Error) :
    let s0 := (NewProbeServer cfg logger).Start.1
    let s1 := s0.MarkStartupComplete
    let s2 := s1.MarkReady
    let s3 := (s2.Stop r).1
    get s0 "/readyz" = ⟨503, "Service not ready yet"⟩ ∧
      (get s1 "/startupz" = ⟨200, "OK"⟩ ∧ get s1 "/readyz" = ⟨503, "Service not ready yet"⟩) ∧
      (get s2 "/startupz" = ⟨200, "OK"⟩ ∧ get s2 "/readyz" = ⟨200, "OK"⟩) ∧
      (get s3 "/readyz" = ⟨503, "Service not ready yet"⟩ ∧ get s3 "/startupz" = ⟨200, "OK"⟩) := by
  intro s0 s1 s2 s3
  have u2 : s2.startupFlag = true := rfl
  exact ⟨get_readyz_of_not_ready s0 rfl,
    ⟨get_startupz_of_complete s1 rfl, get_readyz_of_not_ready s1 rfl⟩,
    ⟨get_startupz_of_complete s2 rfl, get_readyz_of_ready s2 rfl⟩,
    get_readyz_of_not_ready s3 (stop_flags s2 r).1,
    get_startupz_of_complete s3 ((stop_flags s2 r).2.2.1.trans u2)⟩

end Probe

namespace Server

open Probe (ProbeServer Op Error)

/-! ## Order of the stop hooks -/

theorem lifecycleStop_module (cfg : AppConfig) (ext : Externals) :
    lifecycleStop (Module cfg ext) =
      [Effect.Probe Op.MarkNotReady, Effect.Info "🛑 Shutting down Fiber server",
        Effect.Shutdown, Effect.Probe (Op.Stop ext.probeShutdown)] := rfl

theorem onStop_effects (shutdown : Option Error) :
    (StartFiberApp.OnStop true shutdown).effects =
      [Effect.Probe Op.MarkNotReady, Effect.Info "🛑 Shutting down Fiber server",
        Effect.Shutdown] := rfl

theorem stateAt_shutdown_after_markNotReady (w : World) (rest : List Effect) :
    stateAt Effect.Shutdown
        (Effect.Probe Op.MarkNotReady :: Effect.Info "🛑 Shutting down Fiber server" ::
          Effect.Shutdown :: rest) w =
      some ((Effect.Info "🛑 Shutting down Fiber server").apply
        ((Effect.Probe Op.MarkNotReady).apply w)) := by
  simp [stateAt, Effect.exits]

/-- C11, as stated, fails: with the service up, in the stop sequence of the
registered hooks the shutting-down flag is still false in the state in which
`app.Shutdown()` is invoked; it is true only at the end of the sequence. -/
theorem C11_not_shutting_down_at_app_shutdown :
    (stateAt Effect.Shutdown (lifecycleStop (Module appCfg0 ext0)) world0).map
        (fun w => w.probeServer.IsShuttingDown) = some false ∧
      (exec (lifecycleStop (Module appCfg0 ext0)) world0).probeServer.IsShuttingDown = true := by
  constructor
  · rw [lifecycleStop_module, stateAt_shutdown_after_markNotReady]; rfl
  · rfl

/-- C11 (amended): in the stop sequence of the registered hooks the server hook
runs before the probe hook, so in the state in which `app.Shutdown()` is invoked
`MarkNotReady()` has run and `IsReady()` is false, while `IsShuttingDown()` still
has the value it had before the sequence; `ProbeServer.Stop` runs after
`app.Shutdown()` and `IsShuttingDown()` is true once the sequence has ended. -/
theorem C11_stop_sequence_order (cfg : AppConfig) (ext : Externals) (w : World) :
    (lifecycleStop (Module cfg ext)).indexOf Effect.Shutdown <
        (lifecycleStop (Module cfg ext)).indexOf (Effect.Probe (Op.Stop ext.probeShutdown)) ∧
      (∃ v, stateAt Effect.Shutdown (lifecycleStop (Module cfg ext)) w = some v ∧
        v.probeServer.IsReady = false ∧
        v.probeServer.IsShuttingDown = w.probeServer.IsShuttingDown) ∧
      (exec (lifecycleStop (Module cfg ext)) w).probeServer.IsShuttingDown = true := by
  rw [lifecycleStop_module]
  refine ⟨?_, ⟨_, stateAt_shutdown_after_markNotReady w _, rfl, rfl⟩, ?_⟩
  · simp [List.indexOf_cons]
  · exact (Probe.stop_flags _ ext.probeShutdown).2.1

/-- C12: in the main server's `OnStop` hook with a non-nil probe server,
`MarkNotReady()` is called before `app.Shutdown()`, and from every prior state
`IsReady()` is false in the state in which `app.Shutdown()` is invoked. -/
theorem C12_not_ready_before_app_shutdown (shutdown : Option Error) (w : World) :
    Effect.Probe Op.MarkNotReady ∈ (StartFiberApp.OnStop true shutdown).effects ∧
      (StartFiberApp.OnStop true shutdown).effects.indexOf (Effect.Probe Op.MarkNotReady) <
        (StartFiberApp.OnStop true shutdown).effects.indexOf Effect.Shutdown ∧
      (∃ v, stateAt Effect.Shutdown (StartFiberApp.OnStop true shutdown).effects w = some v ∧
        v.probeServer.IsReady = false) ∧
      (StartFiberApp.OnStop true shutdown).result = shutdown := by
  rw [onStop_effects]
  exact ⟨by decide, by decide, ⟨_, stateAt_shutdown_after_markNotReady w _, rfl⟩, rfl⟩

/-! ## The start hook of the main server -/

end Server


namespace Probe

/-! ## Concurrent calls -/

theorem stores_apply (o : Op) (p : ProbeServer) :
    o.stores.foldl (fun s fb => s.store fb.1 fb.2) p.flags = (o.apply p).flags := by
  cases o with
  | Stop r => cases r <;> rfl
  | _ => rfl

theorem safeThread_false (t : List (Flag × Bool)) :
    ∀ r : Bool, safeThread r t = true → safeThread false t = true := by
  induction t with
  | nil => intro _ _; rfl
  | cons x t ih =>
    intro r h
    obtain ⟨f, b⟩ := x
    cases f <;> cases b <;>
      simp only [safeThread, Bool.and_eq_true, Bool.not_eq_true', Bool.not_false,
        Bool.true_and, true_and] at h ⊢
    · exact h
    · exact absurd h (by simp)
    · exact ih r h
    · exact ih r h
    · exact ih r h
    · exact ih r h.2

theorem safeThread_stores (o : Op) (ho : o ≠ Op.MarkReady) (r : Bool) :
    safeThread r o.stores = true := by
  cases o <;> simp_all [Op.stores, safeThread]

theorem safe_init (s : Flags) (ops : List Op) (hops : Op.MarkReady ∉ ops)
    (hs : s.shutdown = true → s.ready = false) : (Conc.init s ops).Safe := by
  refine ⟨hs, fun t ht => ?_⟩
  obtain ⟨o, ho, rfl⟩ := List.mem_map.1 ht
  exact safeThread_stores o (fun h => hops (h ▸ ho)) _

theorem safe_step (c : Conc) (i : Nat) (hc : c.Safe) : (c.step i).Safe := by
  unfold Conc.step
  cases hget : c.threads.get? i with
  | none => simpa using hc
  | some t =>
    cases t with
    | nil => simpa using hc
    | cons x rest =>
      obtain ⟨f, b⟩ := x
      have hmem : (f, b) :: rest ∈ c.threads := List.get?_mem hget
      have hsafe := hc.2 _ hmem
      have hothers : ∀ u ∈ c.threads.set i rest, u ∈ c.threads ∨ u = rest :=
        fun u hu => List.mem_or_eq_of_mem_set hu
      cases f <;> cases b <;> simp only [safeThread, Bool.and_eq_true, Bool.not_eq_true'] at hsafe
      · -- ready := false
        refine ⟨fun _ => rfl, fun u hu => ?_⟩
        rcases hothers u hu with h | h
        · exact safeThread_false u _ (hc.2 u h)
        · exact h ▸ hsafe
      · exact absurd hsafe (by simp)
      · exact ⟨hc.1, fun u hu => (hothers u hu).elim (hc.2 u) (fun h => h ▸ hsafe)⟩
      · exact ⟨hc.1, fun u hu => (hothers u hu).elim (hc.2 u) (fun h => h ▸ hsafe)⟩
      · exact ⟨fun h => absurd h (by simp [Flags.store]),
          fun u hu => (hothers u hu).elim (hc.2 u) (fun h => h ▸ hsafe)⟩
      · exact ⟨fun _ => hsafe.1,
          fun u hu => (hothers u hu).elim (hc.2 u) (fun h => h ▸ hsafe.2)⟩

theorem ready_step (c : Conc) (i : Nat) (hc : c.Safe) (hr : c.flags.ready = false) :
    (c.step i).flags.ready = false := by
  unfold Conc.step
  cases hget : c.threads.get? i with
  | none => simpa using hr
  | some t =>
    cases t with
    | nil => simpa using hr
    | cons x rest =>
      obtain ⟨f, b⟩ := x
      have hsafe := hc.2 _ (List.get?_mem hget)
      cases f <;> cases b <;> first
        | exact hr
        | rfl
        | exact absurd hsafe (by simp [safeThread])

theorem safe_run (sched : List Nat) : ∀ c : Conc, c.Safe → (c.run sched).Safe := by
  induction sched with
  | nil => intro c hc; exact hc
  | cons i rest ih => intro c hc; exact ih _ (safe_step c i hc)

theorem ready_run (sched : List Nat) :
    ∀ c : Conc, c.Safe → c.flags.ready = false → (c.run sched).flags.ready = false := by
  induction sched with
  | nil => intro c _ hr; exact hr
  | cons i rest ih => intro c hc hr; exact ih _ (safe_step c i hc) (ready_step c i hc hr)

/-- C14, as stated, fails: with `Stop` and `MarkReady` called concurrently on a
ready server, the interleaving in which both stores of `Stop` come before the
store of `MarkReady` ends with the shutting-down flag and the ready flag both
true, and every later reader sees them so. -/
theorem C14_stop_markReady_interleaving :
    ((Conc.init ⟨true, true, false⟩ [Op.Stop none, Op.MarkReady]).run [0, 0, 1]).flags =
        ⟨true, true, true⟩ ∧
      ((Conc.init ⟨true, true, false⟩ [Op.Stop none, Op.MarkReady]).run [0, 0, 1]).threads =
        [[], []] := by
  decide

/-- C14 (amended): take any calls of `Start`, `Stop`, `MarkNotReady` and
`MarkStartupComplete` (no `MarkReady`) running concurrently, on flags that are
not both up at the outset.  Under every interleaving of their atomic stores, at
every point at which the shutting-down flag is true the ready flag is false, and
it is still false at every later point: no reader, whether it reads both flags
at once or the shutting-down flag first and the ready flag later, sees
`IsShuttingDown() = true` with `IsReady() = true`. -/
theorem C14_no_reader_sees_both (s : Flags) (ops : List Op) (sched later : List Nat)
    (hops : Op.MarkReady ∉ ops) (hs : s.shutdown = true → s.ready = false)
    (hdown : ((Conc.init s ops).run sched).flags.shutdown = true) :
    ((Conc.init s ops).run sched).flags.ready = false ∧
      (((Conc.init s ops).run sched).run later).flags.ready = false := by
  have hsafe := safe_run sched _ (safe_init s ops hops hs)
  exact ⟨hsafe.1 hdown, ready_run later _ hsafe (hsafe.1 hdown)⟩

theorem C14_no_reader_sees_both_witness :
    ((Conc.init ⟨true, true, false⟩ [Op.Stop none, Op.MarkNotReady, Op.Start]).run
        [2, 0, 0]).flags.ready = false ∧
      (((Conc.init ⟨true, true, false⟩ [Op.Stop none, Op.MarkNotReady, Op.Start]).run
        [2, 0, 0]).run [1, 2]).flags.ready = false :=
  C14_no_reader_sees_both ⟨true, true, false⟩ [Op.Stop none, Op.MarkNotReady, Op.Start]
    [2, 0, 0] [1, 2] (by decide) (by decide) (by decide)

/-! ## Frame properties -/

/-- C15: `MarkReady` and `MarkNotReady` leave the startup and shutting-down
flags unchanged; `MarkStartupComplete` leaves the ready and shutting-down flags
unchanged; `Stop` leaves the startup flag unchanged, whatever `Shutdown`
returns; and `IsReady`, `IsStartupComplete`, `IsShuttingDown` and the `/healthz`,
`/readyz` and `/startupz` handlers leave all three flags unchanged. -/
theorem C15_frame (p : ProbeServer) :
    (p.MarkReady.IsStartupComplete = p.IsStartupComplete ∧
        p.MarkReady.IsShuttingDown = p.IsShuttingDown) ∧
      (p.MarkNotReady.IsStartupComplete = p.IsStartupComplete ∧
        p.MarkNotReady.IsShuttingDown = p.IsShuttingDown) ∧
      (p.MarkStartupComplete.IsReady = p.IsReady ∧
        p.MarkStartupComplete.IsShuttingDown = p.IsShuttingDown) ∧
      (∀ r : Option Error, (p.Stop r).1.IsStartupComplete = p.IsStartupComplete) ∧
      (∀ (q : Query) (w : ResponseWriter),
        (q.call p w).1.IsReady = p.IsReady ∧
        (q.call p w).1.IsStartupComplete = p.IsStartupComplete ∧
        (q.call p w).1.IsShuttingDown = p.IsShuttingDown) := by
  refine ⟨⟨rfl, rfl⟩, ⟨rfl, rfl⟩, ⟨rfl, rfl⟩, fun r => (stop_flags p r).2.2.1, fun q w => ?_⟩
  cases q <;> exact ⟨rfl, rfl, rfl⟩

end Probe

namespace Middleware

open Probe (Error)
open Validator (FieldError StructError)
open Model (ValidationError)
open Utils (Ctx)

/-! ## `ValidateStruct` -/

theorem foldl_append_element (es : List FieldError) :
    ∀ errors : List ValidationError,
      es.foldl (fun errors err => errors ++ [ValidateStruct.element err]) errors =
        errors ++ es.map ValidateStruct.element := by
  induction es with
  | nil => intro errors; simp
  | cons e rest ih => intro errors; simp [ih]

theorem validateStruct_nil {T : Type} (validate : T → Option StructError) (payload : T)
    (h : validate payload = none) : ValidateStruct validate payload = Except.ok [] := by
  simp [ValidateStruct, h]

theorem validateStruct_validationErrors {T : Type} (validate : T → Option StructError)
    (payload : T) (es : List FieldError)
    (h : validate payload = some (StructError.ValidationErrors es)) :
    ValidateStruct validate payload = Except.ok (es.map ValidateStruct.element) := by
  simp [ValidateStruct, h, foldl_append_element]

/-- C16: when validation of a payload yields the field errors `es` (the
validator returns them as `ValidationErrors`, or returns nil when there are
none), `ValidateStruct` returns one entry per field error, in the same order,
with `Field`, `Tag`, `Value` and `Message` taken from `Field()`, `Tag()`,
`Param()` and `getErrorMsg`; the result is empty exactly when there is no field
error. -/
theorem C16_validateStruct_entries {T : Type} (validate : T → Option StructError)
    (payload : T) (es : List FieldError)
    (h : validate payload = some (StructError.ValidationErrors es) ∨
      (es = [] ∧ validate payload = none)) :
    ∃ out : List ValidationError,
      ValidateStruct validate payload = Except.ok out ∧
      out = es.map (fun e => ⟨e.Field, e.Tag, e.Param, getErrorMsg e⟩) ∧
      out.length = es.length ∧
      (∀ (i : Nat) (e : FieldError), es.get? i = some e →
        out.get? i = some ⟨e.Field, e.Tag, e.Param, getErrorMsg e⟩) ∧
      (out = [] ↔ es = []) := by
  refine ⟨es.map ValidateStruct.element, ?_, rfl, by simp, ?_, by simp⟩
  · rcases h with h | ⟨rfl, h⟩
    · exact validateStruct_validationErrors validate payload es h
    · exact validateStruct_nil validate payload h
  · intro i e hi
    rw [List.get?_eq_getElem?] at hi ⊢
    rw [List.getElem?_map, hi]
    rfl

theorem C16_validateStruct_entries_witness :
    ∃ out : List ValidationError,
      ValidateStruct validate0 "abcd" = Except.ok out ∧
      out = [⟨"Name", "max", "3"⟩].map (fun e => ⟨e.Field, e.Tag, e.Param, getErrorMsg e⟩) ∧
      out.length = [(⟨"Name", "max", "3"⟩ : FieldError)].length ∧
      (∀ (i : Nat) (e : FieldError), [(⟨"Name", "max", "3"⟩ : FieldError)].get? i = some e →
        out.get? i = some ⟨e.Field, e.Tag, e.Param, getErrorMsg e⟩) ∧
      (out = [] ↔ [(⟨"Name", "max", "3"⟩ : FieldError)] = []) :=
  C16_validateStruct_entries validate0 "abcd" [⟨"Name", "max", "3"⟩] (Or.inl (by decide))

/-! ## `RequestValidator` -/

theorem requestValidator_parse_error {T : Type} (BodyParser : Ctx T → Except Error T)
    (validate : T → Option StructError) (c : Ctx T) (e : Error)
    (hp : BodyParser c = Except.error e) :
    RequestValidator BodyParser validate c =
      Except.ok (Handled.sent
        { c with
          status := 400
          body := some ⟨false, none,
            some ⟨"invalid_request", "Invalid request body format", none⟩, none⟩ }
        none) := by
  simp [RequestValidator, hp, Utils.BadRequest, Utils.Error, Utils.Response.Send,
    Utils.Response.WithError, Utils.NewResponse, Utils.StatusBadRequest]

theorem requestValidator_invalid {T : Type} (BodyParser : Ctx T → Except Error T)
    (validate : T → Option StructError) (c : Ctx T) (v : T) (errs : List ValidationError)
    (hp : BodyParser c = Except.ok v) (hv : ValidateStruct validate v = Except.ok errs)
    (hne : errs ≠ []) :
    RequestValidator BodyParser validate c =
      Except.ok (Handled.sent
        { c with
          status := 400
          body := some ⟨false, none,
            some ⟨"validation_error", "Validation failed", some errs⟩, none⟩ }
        none) := by
  have hlen : 0 < errs.length := List.length_pos.2 hne
  simp [RequestValidator, hp, hv, hlen, Utils.BadRequest, Utils.Error, Utils.Response.Send,
    Utils.Response.WithError, Utils.NewResponse, Utils.StatusBadRequest]

theorem requestValidator_valid {T : Type} (BodyParser : Ctx T → Except Error T)
    (validate : T → Option StructError) (c : Ctx T) (v : T)
    (hp : BodyParser c = Except.ok v) (hv : ValidateStruct validate v = Except.ok []) :
    RequestValidator BodyParser validate c =
      Except.ok (Handled.next (c.Locals "payload" v)) := by
  simp [RequestValidator, hp, hv]

theorem requestValidator_panic {T : Type} (BodyParser : Ctx T → Except Error T)
    (validate : T → Option StructError) (c : Ctx T) (v : T) (msg : String)
    (hp : BodyParser c = Except.ok v) (hv : ValidateStruct validate v = Except.error msg) :
    RequestValidator BodyParser validate c = Except.error msg := by
  simp [RequestValidator, hp, hv]

/-- C17: the handler of `RequestValidator` ends in `c.Next()` exactly when the
body parses and `ValidateStruct` returns no errors, and then the parsed value is
stored under the local `payload`.  On a parse failure it answers 400 with code
`invalid_request` and no details; on a validation failure it answers 400 with
code `validation_error` and the validation errors as details; in both failure
cases it does not call next and leaves the locals as they were. -/
theorem C17_requestValidator {T : Type} (BodyParser : Ctx T → Except Error T)
    (validate : T → Option StructError) (c : Ctx T) :
    ((∃ c1, RequestValidator BodyParser validate c = Except.ok (Handled.next c1)) ↔
        ∃ v, BodyParser c = Except.ok v ∧ ValidateStruct validate v = Except.ok []) ∧
      (∀ v, BodyParser c = Except.ok v → ValidateStruct validate v = Except.ok [] →
        RequestValidator BodyParser validate c =
            Except.ok (Handled.next (c.Locals "payload" v)) ∧
          (c.Locals "payload" v).local? "payload" = some v) ∧
      (∀ e, BodyParser c = Except.error e →
        ∃ c1, RequestValidator BodyParser validate c = Except.ok (Handled.sent c1 none) ∧
          c1.status = 400 ∧
          c1.body = some ⟨false, none,
            some ⟨"invalid_request", "Invalid request body format", none⟩, none⟩ ∧
          c1.locals = c.locals) ∧
      (∀ v errs, BodyParser c = Except.ok v → ValidateStruct validate v = Except.ok errs →
        errs ≠ [] →
        ∃ c1, RequestValidator BodyParser validate c = Except.ok (Handled.sent c1 none) ∧
          c1.status = 400 ∧
          c1.body = some ⟨false, none,
            some ⟨"validation_error", "Validation failed", some errs⟩, none⟩ ∧
          c1.locals = c.locals) := by
  refine ⟨⟨?_, ?_⟩, ?_, ?_, ?_⟩
  · rintro ⟨c1, h⟩
    cases hp : BodyParser c with
    | error e => rw [requestValidator_parse_error BodyParser validate c e hp] at h; cases h
    | ok v =>
      refine ⟨v, rfl, ?_⟩
      cases hv : ValidateStruct validate v with
      | error msg => rw [requestValidator_panic BodyParser validate c v msg hp hv] at h; cases h
      | ok errs =>
        cases errs with
        | nil => rfl
        | cons x xs =>
          rw [requestValidator_invalid BodyParser validate c v _ hp hv (by simp)] at h
          cases h
  · rintro ⟨v, hp, hv⟩
    exact ⟨_, requestValidator_valid BodyParser validate c v hp hv⟩
  · intro v hp hv
    refine ⟨requestValidator_valid BodyParser validate c v hp hv, ?_⟩
    simp [Ctx.Locals, Ctx.local?, List.lookup]
  · intro e hp
    exact ⟨_, requestValidator_parse_error BodyParser validate c e hp, rfl, rfl, rfl⟩
  · intro v errs hp hv hne
    exact ⟨_, requestValidator_invalid BodyParser validate c v errs hp hv hne, rfl, rfl, rfl⟩

end Middleware

namespace KafkaClient

open Probe (Error)

/-! ## `CreateReader` -/

/-- C18 fails on the code: after `CreateReader("a-b", "c")`, the call
`CreateReader("a", "b-c")` builds the same map key `a-b-c` and returns the
cached reader, whose topic is `a-b` and whose group is `c`; no reader for topic
`a` and group `b-c` is created. -/
theorem C18_createReader_key_collision :
    ((kafka0.CreateReader "a-b" "c").1.CreateReader "a" "b-c").2.Topic = "a-b" ∧
      ((kafka0.CreateReader "a-b" "c").1.CreateReader "a" "b-c").2.GroupID = "c" ∧
      ((kafka0.CreateReader "a-b" "c").1.CreateReader "a" "b-c").1.Readers =
        (kafka0.CreateReader "a-b" "c").1.Readers := by
  decide

/-! ## `Close` -/

theorem foldl_reader (res : CloseResults) (rs : List (String × Reader)) :
    ∀ st : Closing,
      (rs.foldl (Close.reader res) st).closed =
          st.closed ++ rs.map (fun e => Closed.reader e.1) ∧
        ((rs.foldl (Close.reader res) st).lastErr = none ↔
          st.lastErr = none ∧ ∀ e ∈ rs, res.reader e.1 = none) := by
  induction rs with
  | nil => intro st; simp
  | cons e rest ih =>
    intro st
    rw [List.foldl_cons]
    obtain ⟨hc, hl⟩ := ih (Close.reader res st e)
    rw [hc, hl]
    cases hr : res.reader e.1 <;> simp [Close.reader, hr]

theorem foldl_writer (res : CloseResults) (ws : List (String × Writer)) :
    ∀ st : Closing,
      (ws.foldl (Close.writer res) st).closed =
          st.closed ++ ws.map (fun e => Closed.writer e.1) ∧
        ((ws.foldl (Close.writer res) st).lastErr = none ↔
          st.lastErr = none ∧ ∀ e ∈ ws, res.writer e.1 = none) := by
  induction ws with
  | nil => intro st; simp
  | cons e rest ih =>
    intro st
    rw [List.foldl_cons]
    obtain ⟨hc, hl⟩ := ih (Close.writer res st e)
    rw [hc, hl]
    cases hr : res.writer e.1 <;> simp [Close.writer, hr]

theorem conn_closed (res : CloseResults) (k : Kafka) (st : Closing) :
    (Close.conn res k st).closed = st.closed ++ (if k.Conn.isSome then [Closed.conn] else []) ∧
      ((Close.conn res k st).lastErr = none ↔
        st.lastErr = none ∧ (k.Conn.isSome = true → res.conn = none)) ∧
      (∀ err, k.Conn.isSome = true → res.conn = some err →
        (Close.conn res k st).lastErr = some err) := by
  cases hk : k.Conn with
  | none => simp [Close.conn, hk]
  | some a => cases hr : res.conn <;> simp [Close.conn, hk, hr]

/-- C19: `Close` calls `Close` on every reader, then on every writer, then on
the main connection when it is not nil, each exactly once and whatever the
earlier calls returned; it returns nil exactly when every one of these calls
succeeded; and when the main connection fails to close, the error returned is
the connection's error. -/
theorem C19_close_all (k : Kafka) (res : CloseResults) :
    (k.Close res).closed =
        k.Readers.map (fun e => Closed.reader e.1) ++
          k.Writers.map (fun e => Closed.writer e.1) ++
          (if k.Conn.isSome then [Closed.conn] else []) ∧
      ((k.Close res).lastErr = none ↔
        (∀ e ∈ k.Readers, res.reader e.1 = none) ∧
          (∀ e ∈ k.Writers, res.writer e.1 = none) ∧
          (k.Conn.isSome = true → res.conn = none)) ∧
      (∀ err, k.Conn.isSome = true → res.conn = some err →
        (k.Close res).lastErr = some err) := by
  have hr := foldl_reader res k.Readers ⟨k.Logger, none, []⟩
  have hw := foldl_writer res k.Writers
    (k.Readers.foldl (Close.reader res) ⟨k.Logger, none, []⟩)
  have hc := conn_closed res k
    (k.Writers.foldl (Close.writer res)
      (k.Readers.foldl (Close.reader res) ⟨k.Logger, none, []⟩))
  refine ⟨?_, ?_, ?_⟩
  · show (Close.conn res k _).closed = _
    rw [hc.1, hw.1, hr.1]
    simp
  · show (Close.conn res k _).lastErr = none ↔ _
    rw [hc.2.1, hw.2, hr.2]
    simp [and_assoc]
  · exact hc.2.2

end KafkaClient

namespace ClickHouseClient

open Probe (Error)

/-! ## `migrate` -/

theorem toExecute_nil {σ : Type} (env : Env σ) : toExecute env [] = [] := rfl

theorem toExecute_cons_skip {σ : Type} (env : Env σ) (name : String) (rest : List String)
    (h : Ext name ≠ ".sql") : toExecute env (name :: rest) = toExecute env rest := by
  simp [toExecute, List.filter_cons, h]

theorem toExecute_cons_unreadable {σ : Type} (env : Env σ) (name : String)
    (rest : List String) (err : Error) (h : Ext name = ".sql")
    (hr : env.ReadFile (Join env.migrationsDir name) = Except.error err) :
    toExecute env (name :: rest) = toExecute env rest := by
  simp [toExecute, List.filter_cons, h, hr]

theorem toExecute_cons_readable {σ : Type} (env : Env σ) (name : String)
    (rest : List String) (content : String) (h : Ext name = ".sql")
    (hr : env.ReadFile (Join env.migrationsDir name) = Except.ok content) :
    toExecute env (name :: rest) = (name, content) :: toExecute env rest := by
  simp [toExecute, List.filter_cons, h, hr]

theorem loop_calls {σ : Type} (env : Env σ) (files : List String) :
    ∀ c : ClickHouse σ,
      ((migrate.loop env files c).2 = none ∧
          (migrate.loop env files c).1.Client.calls =
            c.Client.calls ++ (toExecute env files).map (fun fc => (fc.2, none))) ∨
        ∃ (n : Nat) (file content : String) (e : Error),
          (toExecute env files).get? n = some (file, content) ∧
          (migrate.loop env files c).1.Client.calls =
            c.Client.calls ++ ((toExecute env files).take n).map (fun fc => (fc.2, none)) ++
              [(content, some e)] ∧
          (migrate.loop env files c).2 =
            some ("failed to execute migration " ++ file ++ ": " ++ e) := by
  induction files with
  | nil => intro c; left; simp [migrate.loop, toExecute_nil]
  | cons name rest ih =>
    intro c
    by_cases hext : Ext name = ".sql"
    · cases hr : env.ReadFile (Join env.migrationsDir name) with
      | error err =>
        have hloop : migrate.loop env (name :: rest) c =
            migrate.loop env rest
              (c.logError "Failed to read migration file" [("file", name), ("error", err)]) := by
          simp [migrate.loop, hext, hr]
        rw [hloop, toExecute_cons_unreadable env name rest err hext hr]
        exact ih _
      | ok content =>
        rw [toExecute_cons_readable env name rest content hext hr]
        cases he : (env.Exec c.Client.state content).2 with
        | some e =>
          right
          refine ⟨0, name, content, e, rfl, ?_, ?_⟩
          · simp [migrate.loop, hext, hr, Conn.Exec, he, ClickHouse.logError]
          · simp [migrate.loop, hext, hr, Conn.Exec, he]
        | none =>
          have hloop : migrate.loop env (name :: rest) c =
              migrate.loop env rest
                (({ c with Client := (c.Client.Exec env content).1 } : ClickHouse σ).logInfo
                  "Migration executed successfully" [("file", name)]) := by
            simp [migrate.loop, hext, hr, Conn.Exec, he]
          have hcalls : (({ c with Client := (c.Client.Exec env content).1 } :
              ClickHouse σ).logInfo "Migration executed successfully"
                [("file", name)]).Client.calls = c.Client.calls ++ [(content, none)] := by
            simp [ClickHouse.logInfo, Conn.Exec, he]
          rw [hloop]
          rcases ih (({ c with Client := (c.Client.Exec env content).1 } :
              ClickHouse σ).logInfo "Migration executed successfully" [("file", name)]) with
            ⟨h1, h2⟩ | ⟨n, file, body, e, h1, h2, h3⟩
          · left
            refine ⟨h1, ?_⟩
            rw [h2, hcalls]
            simp
          · right
            refine ⟨n + 1, file, body, e, ?_, ?_, h3⟩
            · simpa using h1
            · rw [h2, hcalls]
              simp
    · have hloop : migrate.loop env (name :: rest) c = migrate.loop env rest c := by
        simp [migrate.loop, hext]
      rw [hloop, toExecute_cons_skip env name rest hext]
      exact ih c

/-- C20: when the migrations directory exists and is listed as `files`, `migrate`
passes to `Exec` the contents of the entries whose extension is `.sql` and that
can be read, in listing order, and nothing else.  Either every one of them is
executed without error and `migrate` returns nil; or the executions stop at the
first one that fails, none after it is made, and `migrate` returns an error
naming that file.  An entry with another extension and a `.sql` file that
cannot be read are passed over and do not change what is returned. -/
theorem C20_migrate {σ : Type} (env : Env σ) (c : ClickHouse σ) (files : List String)
    (hdir : env.notExist = false) (hlist : env.ReadDir = Except.ok files) :
    ((c.migrate env).2 = none ∧
        (c.migrate env).1.Client.calls =
          c.Client.calls ++ (toExecute env files).map (fun fc => (fc.2, none))) ∨
      ∃ (n : Nat) (file content : String) (e : Error),
        (toExecute env files).get? n = some (file, content) ∧
        (c.migrate env).1.Client.calls =
          c.Client.calls ++ ((toExecute env files).take n).map (fun fc => (fc.2, none)) ++
            [(content, some e)] ∧
        (c.migrate env).2 = some ("failed to execute migration " ++ file ++ ": " ++ e) := by
  have hm : c.migrate env =
      match migrate.loop env files (c.logInfo "🪿 Running ClickHouse migrations" []) with
      | (c, some err) => (c, some err)
      | (c, none) => (c.logInfo "✅ ClickHouse migrations completed" [], none) := by
    simp [ClickHouse.migrate, hdir, hlist]
  have hloop := loop_calls env files (c.logInfo "🪿 Running ClickHouse migrations" [])
  have hc : (c.logInfo "🪿 Running ClickHouse migrations" []).Client.calls = c.Client.calls :=
    rfl
  rw [hc] at hloop
  rw [hm]
  generalize migrate.loop env files (c.logInfo "🪿 Running ClickHouse migrations" []) = out
    at hloop
  obtain ⟨c1, r⟩ := out
  cases r with
  | none =>
    rcases hloop with ⟨_, h2⟩ | ⟨n, file, content, e, _, _, h3⟩
    · exact Or.inl ⟨rfl, h2⟩
    · cases h3
  | some err =>
    rcases hloop with ⟨h1, _⟩ | ⟨n, file, content, e, h1, h2, h3⟩
    · cases h1
    · exact Or.inr ⟨n, file, content, e, h1, h2, h3⟩

theorem C20_migrate_witness :
    env0.notExist = false ∧
      env0.ReadDir =
        Except.ok ["001_init.sql", "002_locked.sql", "003_drop.sql", "README.md"] ∧
      toExecute env0 ["001_init.sql", "002_locked.sql", "003_drop.sql", "README.md"] =
        [("001_init.sql", "CREATE TABLE t (x Int32)"), ("003_drop.sql", "DROP TABLE u")] ∧
      (((clickhouse0.migrate env0).2 = none ∧
          (clickhouse0.migrate env0).1.Client.calls =
            clickhouse0.Client.calls ++
              (toExecute env0 ["001_init.sql", "002_locked.sql", "003_drop.sql",
                "README.md"]).map (fun fc => (fc.2, none))) ∨
        ∃ (n : Nat) (file content : String) (e : Error),
          (toExecute env0 ["001_init.sql", "002_locked.sql", "003_drop.sql",
            "README.md"]).get? n = some (file, content) ∧
          (clickhouse0.migrate env0).1.Client.calls =
            clickhouse0.Client.calls ++
              ((toExecute env0 ["001_init.sql", "002_locked.sql", "003_drop.sql",
                "README.md"]).take n).map (fun fc => (fc.2, none)) ++
              [(content, some e)] ∧
          (clickhouse0.migrate env0).2 =
            some ("failed to execute migration " ++ file ++ ": " ++ e)) :=
  ⟨rfl, rfl, by decide,
    C20_migrate env0 clickhouse0
      ["001_init.sql", "002_locked.sql", "003_drop.sql", "README.md"] rfl rfl⟩

end ClickHouseClient

namespace ErrorHandling

/-! ## `ErrorHandler` -/

theorem firstFiber_append (xs ys : List GoError) :
    firstFiber (xs ++ ys) =
      match firstFiber xs with
      | some r => some r
      | none => firstFiber ys := by
  induction xs with
  | nil => simp [firstFiber]
  | cons x xs ih => cases x <;> simp [firstFiber, ih]

mutual
theorem asFiber_eq_firstFiber (e : GoError) : e.asFiber = firstFiber e.chain := by
  cases e with
  | fiber c m => simp [GoError.asFiber, GoError.chain, firstFiber]
  | nilFiber => simp [GoError.asFiber, GoError.chain, firstFiber]
  | plain m => simp [GoError.asFiber, GoError.chain, firstFiber]
  | wrap m inner =>
    simp [GoError.asFiber, GoError.chain, firstFiber, asFiber_eq_firstFiber inner]
  | join m inners =>
    simp [GoError.asFiber, GoError.chain, firstFiber, asFibers_eq_firstFiber inners]
theorem asFibers_eq_firstFiber (es : GoErrors) : es.asFiber = firstFiber es.chain := by
  cases es with
  | nil => simp [GoErrors.asFiber, GoErrors.chain, firstFiber]
  | cons e rest =>
    simp [GoErrors.asFiber, GoErrors.chain, firstFiber_append, asFiber_eq_firstFiber e,
      asFibers_eq_firstFiber rest]
end

theorem firstFiber_skip (pre rest : List GoError) (h : ∀ x ∈ pre, x.isFiber = false) :
    firstFiber (pre ++ rest) = firstFiber rest := by
  induction pre with
  | nil => rfl
  | cons x xs ih =>
    have hx := h x (by simp)
    have hxs : ∀ y ∈ xs, y.isFiber = false := fun y hy => h y (by simp [hy])
    cases x <;> simp_all [firstFiber, GoError.isFiber]

theorem chain_head (err : GoError) : ∃ tail, err.chain = err :: tail := by
  cases err <;> simp [GoError.chain]

theorem error_ok_of_not_fiber (err : GoError) (h : err.isFiber = false) :
    ∃ m, err.Error = Except.ok m := by
  cases err <;> simp_all [GoError.Error, GoError.isFiber]

theorem errorHandler_no_fiber (c : Ctx) (err : GoError) (m : String)
    (has : err.asFiber = none) (hm : err.Error = Except.ok m) :
    ErrorHandler c err = Except.ok (⟨500, some ⟨m, 500⟩⟩, none) := by
  simp [ErrorHandler, has, hm, Ctx.JSON, Ctx.Status, StatusInternalServerError]

theorem errorHandler_fiber (c : Ctx) (err : GoError) (m msg : String) (code : Int)
    (has : err.asFiber = some (some (code, msg))) (hm : err.Error = Except.ok m) :
    ErrorHandler c err = Except.ok (⟨code, some ⟨m, code⟩⟩, none) := by
  simp [ErrorHandler, has, hm, Ctx.JSON, Ctx.Status]

theorem errorHandler_nil_fiber (c : Ctx) (err : GoError) (has : err.asFiber = some none) :
    ErrorHandler c err = Except.error nilDereference := by
  simp [ErrorHandler, has]

/-- C21, as stated, fails: for a `*fiber.Error` with `Code` 0 the handler
stores the status 0, which the response carries as 200, while the body has
`code` 0: the status is not `e.Code`, and the body's `code` is not the status. -/
theorem C21_zero_code_answers_200 :
    ∃ c1, ErrorHandler ctx0 (GoError.fiber 0 "zero") = Except.ok (c1, none) ∧
      c1.StatusCode = 200 ∧ c1.body = some { Message := "zero", Code := 0 } :=
  ⟨_, rfl, rfl, rfl⟩

/-- C21 (amended): let `err` be any error.  When `err` neither is nor wraps a
`*fiber.Error`, `ErrorHandler` answers with status 500 and a JSON body whose
`code` is 500 and whose `message` is `err.Error()`.  When the first
`*fiber.Error` that `err` is or wraps is a non-nil `e`, the body has `code`
`e.Code` and `message` `err.Error()`, and the status is `e.Code` if that is not
0; for `e.Code` 0 the status is 200.  In both cases it returns nil. -/
theorem C21_errorHandler (c : Ctx) (err : GoError) :
    ((∀ x ∈ err.chain, x.isFiber = false) →
        ∃ c1 m, ErrorHandler c err = Except.ok (c1, none) ∧ err.Error = Except.ok m ∧
          c1.StatusCode = 500 ∧ c1.body = some { Message := m, Code := 500 }) ∧
      (∀ (pre post : List GoError) (code : Int) (msg : String),
        err.chain = pre ++ GoError.fiber code msg :: post →
        (∀ x ∈ pre, x.isFiber = false) →
        ∃ c1 m, ErrorHandler c err = Except.ok (c1, none) ∧ err.Error = Except.ok m ∧
          c1.body = some { Message := m, Code := code } ∧
          (code ≠ 0 → c1.StatusCode = code) ∧ (code = 0 → c1.StatusCode = 200)) := by
  obtain ⟨tail, htail⟩ := chain_head err
  constructor
  · intro h
    have has : err.asFiber = none := by
      rw [asFiber_eq_firstFiber, ← List.append_nil err.chain, firstFiber_skip _ _ h]
      rfl
    obtain ⟨m, hm⟩ := error_ok_of_not_fiber err (h err (by simp [htail]))
    exact ⟨_, m, errorHandler_no_fiber c err m has hm, hm, rfl, rfl⟩
  · intro pre post code msg hchain hpre
    have has : err.asFiber = some (some (code, msg)) := by
      rw [asFiber_eq_firstFiber, hchain, firstFiber_skip _ _ hpre]
      rfl
    have hm : ∃ m, err.Error = Except.ok m := by
      cases pre with
      | nil =>
        rw [htail] at hchain
        simp at hchain
        exact ⟨msg, by rw [hchain.1]; rfl⟩
      | cons y ys =>
        rw [htail] at hchain
        simp at hchain
        exact error_ok_of_not_fiber err (hchain.1 ▸ hpre y (by simp))
    obtain ⟨m, hm⟩ := hm
    refine ⟨_, m, errorHandler_fiber c err m msg code has hm, hm, rfl, ?_, ?_⟩
    · intro hne; simp [Ctx.StatusCode, hne]
    · intro h0; simp [Ctx.StatusCode, h0]

end ErrorHandling

namespace Middleware

/-! ## Totality of `ValidateStruct` -/

theorem validateStruct_invalid {T : Type} (validate : T → Option Validator.StructError)
    (payload : T) (type : String)
    (h : validate payload = some (Validator.StructError.InvalidValidationError type)) :
    ValidateStruct validate payload =
      Except.error ("interface conversion: error is *validator.InvalidValidationError, " ++
        "not validator.ValidationErrors") := by
  simp [ValidateStruct, h]

/-- C22 fails on the code: for a nil payload and for a payload that is not a
struct the validator returns `*validator.InvalidValidationError`, the type
assertion `err.(validator.ValidationErrors)` panics and `ValidateStruct` returns
no slice; the panic goes through the handler of `RequestValidator`, which sends
no response and does not call next. -/
theorem C22_validateStruct_panics :
    ValidateStruct validateStruct1 Payload.nil =
        Except.error ("interface conversion: error is *validator.InvalidValidationError, " ++
          "not validator.ValidationErrors") ∧
      ValidateStruct validateStruct1 (Payload.number 7) =
        Except.error ("interface conversion: error is *validator.InvalidValidationError, " ++
          "not validator.ValidationErrors") ∧
      RequestValidator (fun _ => Except.ok (Payload.number 7)) validateStruct1 ctx1 =
        Except.error ("interface conversion: error is *validator.InvalidValidationError, " ++
          "not validator.ValidationErrors") ∧
      ValidateStruct validateStruct1 (Payload.user "") =
        Except.ok [⟨"Name", "required", "", "This field is required"⟩] ∧
      ValidateStruct validateStruct1 (Payload.user "ann") = Except.ok [] :=
  ⟨rfl, rfl, rfl, rfl, rfl⟩

end Middleware
